import Mathlib

/-!
Verification of the trail-collision core of the achtung-die-kobzon game
(two-player continuous-trail avoidance game).

The embedding below translates the simulation core of the source file
Moving.tsx (the two-player variant with gaps, border and restart): the
TrailMask occupancy grid, the circle mark and circle-vs-trail collision
query, the gap scheduler, the border test, the fixed-capacity recent and
gap-corridor buffers, the round reset, and the per-tick step.

Modelling conventions:
- JS numbers that hold pixel coordinates, radii and times are modelled as
  rationals; grid cell indices are integers; the flat Uint8Array occupancy
  is a function from the flat index rowOffset + pixelX to a natural number
  (0 or 1), zero-initialised as in the source.
- Math.floor, Math.ceil and Math.round map to the integer floor, ceil and
  the round-half-up jsRound below.
- Math.cos, Math.sin and the irrational turn speed PI/2 cannot live in the
  rationals; the step function is parametrised over an Env that supplies
  these as abstract rational-valued functions, so every theorem about the
  step holds for any trigonometry implementation.
- Math.random draws are injected as explicit parameters (gap draws, spawn
  positions), mirroring the design note in the spec about seedable
  randomness.
-/

structure Vector2D where
  x : ℚ
  y : ℚ
deriving DecidableEq, Repr

structure TrailMask where
  widthPixels : ℤ
  heightPixels : ℤ
  occupancy : ℤ → ℕ

structure GapState where
  isActive : Bool
  timeUntilNextGap : ℚ
  remainingGapTime : ℚ
deriving DecidableEq, Repr

structure PlayerState where
  angleRadians : ℚ
  positionPixels : Vector2D
  recentPositions : List Vector2D
  gapCorridor : List Vector2D
  isAlive : Bool
  scoreSeconds : ℚ
  gap : GapState
deriving DecidableEq, Repr

/-! Configuration constants from CONFIG in the source. -/

def radiusPixels : ℚ := 2

def forwardSpeedPixelsPerSecond : ℚ := 80

def recentIgnoreFrameCount : ℕ := 10

def extraIgnoreMarginPixels : ℚ := 3 / 4

def gapsEnabled : Bool := true

def minIntervalSeconds : ℚ := 6 / 5

def maxIntervalSeconds : ℚ := 3

def minDurationSeconds : ℚ := 18 / 100

def maxDurationSeconds : ℚ := 35 / 100

def corridorExtraMarginPixels : ℚ := 6 / 10

def corridorMaxPoints : ℕ := 600

def thicknessPixels : ℚ := 4

def insetPixels : ℚ := 4

/-- The integer interval from lo to hi inclusive, the set of loop indices of
a JS loop for (let i = lo; i <= hi; i++). -/
def intRange (lo hi : ℤ) : List ℤ :=
  (List.range (hi + 1 - lo).toNat).map (fun (i : ℕ) => lo + (i : ℤ))

theorem mem_intRange {lo hi x : ℤ} : x ∈ intRange lo hi ↔ lo ≤ x ∧ x ≤ hi := by
  constructor
  · intro h
    obtain ⟨i, hi1, rfl⟩ := List.mem_map.mp h
    have hlt := List.mem_range.mp hi1
    omega
  · intro h
    refine List.mem_map.mpr ⟨(x - lo).toNat, List.mem_range.mpr ?_, ?_⟩
    · omega
    · omega

/-- Models JS Math.round (round half toward positive infinity). -/
def jsRound (q : ℚ) : ℤ := ⌊q + 1 / 2⌋

/-- createTrailMask: a zero-initialised occupancy grid (Uint8Array is
zero-filled on construction). -/
def createTrailMask (widthPixels heightPixels : ℤ) : TrailMask :=
  { widthPixels := widthPixels, heightPixels := heightPixels, occupancy := fun _ => 0 }

/-- One write of the inner loop body: occupancy[i] = 1. -/
def setCell (occ : ℤ → ℕ) (i : ℤ) : ℤ → ℕ :=
  fun j => if j = i then 1 else occ j

/-- markVisitedCircle: for every grid cell of the clamped bounding box of the
circle, set the cell to occupied when its squared distance to the center is
at most the squared radius. -/
def markVisitedCircle (trailMask : TrailMask) (centerX centerY radius : ℚ) : TrailMask :=
  let minX : ℤ := max 0 ⌊centerX - radius⌋
  let maxX : ℤ := min (trailMask.widthPixels - 1) ⌈centerX + radius⌉
  let minY : ℤ := max 0 ⌊centerY - radius⌋
  let maxY : ℤ := min (trailMask.heightPixels - 1) ⌈centerY + radius⌉
  let radiusSquared : ℚ := radius * radius
  { trailMask with
    occupancy :=
      (intRange minY maxY).foldl (fun (occ : ℤ → ℕ) (pixelY : ℤ) =>
        (intRange minX maxX).foldl (fun (occ2 : ℤ → ℕ) (pixelX : ℤ) =>
          if ((pixelX : ℚ) - centerX) * ((pixelX : ℚ) - centerX)
              + ((pixelY : ℚ) - centerY) * ((pixelY : ℚ) - centerY) ≤ radiusSquared then
            setCell occ2 (pixelY * trailMask.widthPixels + pixelX)
          else occ2) occ)
        trailMask.occupancy }

/-- collidesWithTrailExcludingPoints: scan the clamped bounding box; report a
collision at the first occupied cell within the radius that is not within the
ignore radius of any ignored point. -/
def collidesWithTrailExcludingPoints (trailMask : TrailMask) (center : Vector2D)
    (radius : ℚ) (ignoredPoints : List Vector2D) (extraIgnoreMargin : ℚ) : Bool :=
  let minX : ℤ := max 0 ⌊center.x - radius⌋
  let maxX : ℤ := min (trailMask.widthPixels - 1) ⌈center.x + radius⌉
  let minY : ℤ := max 0 ⌊center.y - radius⌋
  let maxY : ℤ := min (trailMask.heightPixels - 1) ⌈center.y + radius⌉
  let radiusSquared : ℚ := radius * radius
  let ignoreRadius : ℚ := radius + extraIgnoreMargin
  let ignoreRadiusSquared : ℚ := ignoreRadius * ignoreRadius
  (intRange minY maxY).any fun (pixelY : ℤ) =>
    (intRange minX maxX).any fun (pixelX : ℤ) =>
      let distanceSquared : ℚ := ((pixelX : ℚ) - center.x) * ((pixelX : ℚ) - center.x)
        + ((pixelY : ℚ) - center.y) * ((pixelY : ℚ) - center.y)
      if radiusSquared < distanceSquared then false
      else if trailMask.occupancy (pixelY * trailMask.widthPixels + pixelX) == 1 then
        !(ignoredPoints.any fun p =>
          decide (((pixelX : ℚ) - p.x) * ((pixelX : ℚ) - p.x)
            + ((pixelY : ℚ) - p.y) * ((pixelY : ℚ) - p.y) ≤ ignoreRadiusSquared))
      else false

theorem markVisitedCircle_widthPixels (m : TrailMask) (cx cy r : ℚ) :
    (markVisitedCircle m cx cy r).widthPixels = m.widthPixels := rfl

theorem markVisitedCircle_heightPixels (m : TrailMask) (cx cy r : ℚ) :
    (markVisitedCircle m cx cy r).heightPixels = m.heightPixels := rfl

theorem foldl_ite_setCell {α : Type} (p : α → Prop) [DecidablePred p] (f : α → ℤ) :
    ∀ (l : List α) (occ : ℤ → ℕ) (j : ℤ),
      (l.foldl (fun (o : ℤ → ℕ) (a : α) => if p a then setCell o (f a) else o) occ) j
        = if ∃ a ∈ l, p a ∧ f a = j then 1 else occ j := by
  intro l
  induction l with
  | nil => intro occ j; simp
  | cons a t ih =>
    intro occ j
    rw [List.foldl_cons, ih]
    by_cases hpl : ∃ x ∈ t, p x ∧ f x = j
    · rw [if_pos hpl,
        if_pos (by obtain ⟨x, hx, hpx⟩ := hpl; exact ⟨x, List.mem_cons_of_mem a hx, hpx⟩)]
    · rw [if_neg hpl]
      by_cases hpa : p a
      · rw [if_pos hpa]
        by_cases hfa : f a = j
        · rw [if_pos ⟨a, List.mem_cons_self a t, hpa, hfa⟩]
          simp [setCell, hfa]
        · have hno : ¬ ∃ x ∈ a :: t, p x ∧ f x = j := by
            rintro ⟨x, hx, hpx, hfx⟩
            rcases List.mem_cons.mp hx with rfl | hx2
            · exact hfa hfx
            · exact hpl ⟨x, hx2, hpx, hfx⟩
          rw [if_neg hno]
          simp only [setCell]
          rw [if_neg (fun h => hfa h.symm)]
      · rw [if_neg hpa]
        have hno : ¬ ∃ x ∈ a :: t, p x ∧ f x = j := by
          rintro ⟨x, hx, hpx, hfx⟩
          rcases List.mem_cons.mp hx with rfl | hx2
          · exact hpa hpx
          · exact hpl ⟨x, hx2, hpx, hfx⟩
        rw [if_neg hno]

theorem foldl_rows_occ (w : ℤ) (cx cy r2 : ℚ) (xs : List ℤ) :
    ∀ (ys : List ℤ) (occ : ℤ → ℕ) (j : ℤ),
      (ys.foldl (fun (o : ℤ → ℕ) (py : ℤ) =>
          xs.foldl (fun (o2 : ℤ → ℕ) (px : ℤ) =>
            if ((px : ℚ) - cx) * ((px : ℚ) - cx) + ((py : ℚ) - cy) * ((py : ℚ) - cy) ≤ r2 then
              setCell o2 (py * w + px) else o2) o) occ) j
        = if ∃ py ∈ ys, ∃ px ∈ xs,
              (((px : ℚ) - cx) * ((px : ℚ) - cx) + ((py : ℚ) - cy) * ((py : ℚ) - cy) ≤ r2
                ∧ py * w + px = j)
          then 1 else occ j := by
  intro ys
  induction ys with
  | nil => intro occ j; simp
  | cons b t ih =>
    intro occ j
    rw [List.foldl_cons, ih]
    rw [foldl_ite_setCell
      (fun (px : ℤ) => ((px : ℚ) - cx) * ((px : ℚ) - cx) + ((b : ℚ) - cy) * ((b : ℚ) - cy) ≤ r2)
      (fun (px : ℤ) => b * w + px) xs occ j]
    by_cases hpl : ∃ py ∈ t, ∃ px ∈ xs,
        (((px : ℚ) - cx) * ((px : ℚ) - cx) + ((py : ℚ) - cy) * ((py : ℚ) - cy) ≤ r2
          ∧ py * w + px = j)
    · rw [if_pos hpl,
        if_pos (by obtain ⟨py, hpy, hrest⟩ := hpl; exact ⟨py, List.mem_cons_of_mem b hpy, hrest⟩)]
    · rw [if_neg hpl]
      by_cases hb : ∃ px ∈ xs,
          (((px : ℚ) - cx) * ((px : ℚ) - cx) + ((b : ℚ) - cy) * ((b : ℚ) - cy) ≤ r2
            ∧ b * w + px = j)
      · rw [if_pos hb, if_pos ⟨b, List.mem_cons_self b t, hb⟩]
      · rw [if_neg hb]
        have hno : ¬ ∃ py ∈ b :: t, ∃ px ∈ xs,
            (((px : ℚ) - cx) * ((px : ℚ) - cx) + ((py : ℚ) - cy) * ((py : ℚ) - cy) ≤ r2
              ∧ py * w + px = j) := by
          rintro ⟨py, hpy, hrest⟩
          rcases List.mem_cons.mp hpy with rfl | hpy2
          · exact hb hrest
          · exact hpl ⟨py, hpy2, hrest⟩
        rw [if_neg hno]

theorem markVisitedCircle_occupancy (m : TrailMask) (cx cy r : ℚ) (j : ℤ) :
    (markVisitedCircle m cx cy r).occupancy j =
      if ∃ py ∈ intRange (max 0 ⌊cy - r⌋) (min (m.heightPixels - 1) ⌈cy + r⌉),
          ∃ px ∈ intRange (max 0 ⌊cx - r⌋) (min (m.widthPixels - 1) ⌈cx + r⌉),
            (((px : ℚ) - cx) * ((px : ℚ) - cx) + ((py : ℚ) - cy) * ((py : ℚ) - cy) ≤ r * r
              ∧ py * m.widthPixels + px = j)
      then 1 else m.occupancy j := by
  simp only [markVisitedCircle]
  exact foldl_rows_occ m.widthPixels cx cy (r * r)
    (intRange (max 0 ⌊cx - r⌋) (min (m.widthPixels - 1) ⌈cx + r⌉))
    (intRange (max 0 ⌊cy - r⌋) (min (m.heightPixels - 1) ⌈cy + r⌉)) m.occupancy j

theorem collide_body_iff (r2 d2 ig2 : ℚ) (n : ℕ) (pts : List Vector2D) (g : Vector2D → ℚ) :
    ((if r2 < d2 then false
      else if n == 1 then !(pts.any fun p => decide (g p ≤ ig2)) else false) = true)
      ↔ (d2 ≤ r2 ∧ n = 1 ∧ ∀ p ∈ pts, ig2 < g p) := by
  by_cases h1 : r2 < d2
  · rw [if_pos h1]
    simp only [Bool.false_eq_true, false_iff]
    rintro ⟨hle, -⟩
    exact absurd h1 (not_lt.mpr hle)
  · rw [if_neg h1]
    by_cases h2 : n = 1
    · have h2b : (n == 1) = true := by simp [h2]
      rw [if_pos h2b]
      simp only [Bool.not_eq_true', List.any_eq_false, decide_eq_true_eq, not_le]
      constructor
      · intro hall
        exact ⟨not_lt.mp h1, h2, fun p hp => by simpa using hall p hp⟩
      · rintro ⟨-, -, hall⟩
        intro p hp
        simpa using hall p hp
    · have h2b : ¬ ((n == 1) = true) := by simp [h2]
      rw [if_neg h2b]
      simp only [Bool.false_eq_true, false_iff]
      rintro ⟨-, hn, -⟩
      exact h2 hn

theorem collides_eq_true_iff (m : TrailMask) (c : Vector2D) (r mg : ℚ)
    (pts : List Vector2D) :
    collidesWithTrailExcludingPoints m c r pts mg = true ↔
      ∃ py ∈ intRange (max 0 ⌊c.y - r⌋) (min (m.heightPixels - 1) ⌈c.y + r⌉),
      ∃ px ∈ intRange (max 0 ⌊c.x - r⌋) (min (m.widthPixels - 1) ⌈c.x + r⌉),
        (((px : ℚ) - c.x) * ((px : ℚ) - c.x) + ((py : ℚ) - c.y) * ((py : ℚ) - c.y) ≤ r * r ∧
        m.occupancy (py * m.widthPixels + px) = 1 ∧
        ∀ p ∈ pts, (r + mg) * (r + mg) <
          ((px : ℚ) - p.x) * ((px : ℚ) - p.x) + ((py : ℚ) - p.y) * ((py : ℚ) - p.y)) := by
  unfold collidesWithTrailExcludingPoints
  simp only [List.any_eq_true]
  constructor
  · rintro ⟨py, hpy, px, hpx, hbody⟩
    refine ⟨py, hpy, px, hpx, ?_⟩
    have h := (collide_body_iff (r * r)
      (((px : ℚ) - c.x) * ((px : ℚ) - c.x) + ((py : ℚ) - c.y) * ((py : ℚ) - c.y))
      ((r + mg) * (r + mg)) (m.occupancy (py * m.widthPixels + px)) pts
      (fun p => ((px : ℚ) - p.x) * ((px : ℚ) - p.x)
        + ((py : ℚ) - p.y) * ((py : ℚ) - p.y))).mp hbody
    exact h
  · rintro ⟨py, hpy, px, hpx, hbody⟩
    refine ⟨py, hpy, px, hpx, ?_⟩
    exact (collide_body_iff (r * r)
      (((px : ℚ) - c.x) * ((px : ℚ) - c.x) + ((py : ℚ) - c.y) * ((py : ℚ) - c.y))
      ((r + mg) * (r + mg)) (m.occupancy (py * m.widthPixels + px)) pts
      (fun p => ((px : ℚ) - p.x) * ((px : ℚ) - p.x)
        + ((py : ℚ) - p.y) * ((py : ℚ) - p.y))).mpr hbody

theorem collides_perm_invariant (m : TrailMask) (c : Vector2D) (r mg : ℚ)
    {pts pts2 : List Vector2D} (hp : pts.Perm pts2) :
    collidesWithTrailExcludingPoints m c r pts mg
      = collidesWithTrailExcludingPoints m c r pts2 mg := by
  cases hb : collidesWithTrailExcludingPoints m c r pts2 mg
  · rw [Bool.eq_false_iff]
    intro hcontra
    rw [Bool.eq_false_iff] at hb
    apply hb
    rw [collides_eq_true_iff] at hcontra ⊢
    obtain ⟨py, hpy, px, hpx, hd, hocc, hall⟩ := hcontra
    exact ⟨py, hpy, px, hpx, hd, hocc, fun p hp2 => hall p (hp.mem_iff.mpr hp2)⟩
  · rw [collides_eq_true_iff] at hb ⊢
    obtain ⟨py, hpy, px, hpx, hd, hocc, hall⟩ := hb
    exact ⟨py, hpy, px, hpx, hd, hocc, fun p hp2 => hall p (hp.mem_iff.mp hp2)⟩

theorem createTrailMask_widthPixels (w h : ℤ) : (createTrailMask w h).widthPixels = w := rfl

theorem createTrailMask_heightPixels (w h : ℤ) : (createTrailMask w h).heightPixels = h := rfl

theorem createTrailMask_occupancy (w h j : ℤ) : (createTrailMask w h).occupancy j = 0 := rfl

theorem flatIndex_inj {w px px2 py py2 : ℤ} (h0 : 0 ≤ px) (h1 : px < w)
    (h2 : 0 ≤ px2) (h3 : px2 < w) (he : py * w + px = py2 * w + px2) :
    px = px2 ∧ py = py2 := by
  have hd : (py - py2) * w = px2 - px := by linear_combination he
  rcases lt_trichotomy py py2 with h | h | h
  · exfalso
    have hle : (py - py2) * w ≤ (-1) * w :=
      mul_le_mul_of_nonneg_right (by omega) (by omega)
    rw [hd] at hle
    omega
  · subst h
    simp only [sub_self, zero_mul] at hd
    exact ⟨by omega, rfl⟩
  · exfalso
    have hle : 1 * w ≤ (py - py2) * w :=
      mul_le_mul_of_nonneg_right (by omega) (by omega)
    rw [hd] at hle
    omega

/-- C1: collidesWithTrailExcludingPoints returns true exactly when some grid
cell of the clamped bounding box has squared distance to the center at most
the squared radius, is occupied, and lies within distance radius plus margin
of no excluded point; and the result is invariant under permuting the
excluded-point list. The existential characterization is independent of any
scan order of the cells. -/
theorem claim_c1_collides_characterization (m : TrailMask) (center : Vector2D)
    (r mg : ℚ) (pts : List Vector2D) (hr : 0 ≤ r) (hm : 0 ≤ mg) :
    (collidesWithTrailExcludingPoints m center r pts mg = true ↔
      ∃ px py : ℤ,
        (max 0 ⌊center.x - r⌋ ≤ px ∧ px ≤ min (m.widthPixels - 1) ⌈center.x + r⌉ ∧
         max 0 ⌊center.y - r⌋ ≤ py ∧ py ≤ min (m.heightPixels - 1) ⌈center.y + r⌉) ∧
        ((px : ℚ) - center.x) * ((px : ℚ) - center.x)
          + ((py : ℚ) - center.y) * ((py : ℚ) - center.y) ≤ r * r ∧
        m.occupancy (py * m.widthPixels + px) = 1 ∧
        ∀ q ∈ pts, (r + mg) * (r + mg) <
          ((px : ℚ) - q.x) * ((px : ℚ) - q.x) + ((py : ℚ) - q.y) * ((py : ℚ) - q.y)) ∧
    (∀ pts2 : List Vector2D, pts.Perm pts2 →
      collidesWithTrailExcludingPoints m center r pts mg
        = collidesWithTrailExcludingPoints m center r pts2 mg) := by
  constructor
  · rw [collides_eq_true_iff]
    constructor
    · rintro ⟨py, hpy, px, hpx, hrest⟩
      rw [mem_intRange] at hpy hpx
      exact ⟨px, py, ⟨hpx.1, hpx.2, hpy.1, hpy.2⟩, hrest⟩
    · rintro ⟨px, py, hb, hrest⟩
      exact ⟨py, mem_intRange.mpr ⟨hb.2.2.1, hb.2.2.2⟩, px,
        mem_intRange.mpr ⟨hb.1, hb.2.1⟩, hrest⟩
  · intro pts2 hp
    exact collides_perm_invariant m center r mg hp

theorem claim_c1_witness :
    (0 : ℚ) ≤ 2 ∧ (0 : ℚ) ≤ 0 ∧
    collidesWithTrailExcludingPoints (createTrailMask 5 5) ⟨2, 2⟩ 2 [] 0 = false := by
  refine ⟨by norm_num, le_refl 0, ?_⟩
  have h := (claim_c1_collides_characterization (createTrailMask 5 5) ⟨2, 2⟩ 2 0 []
    (by norm_num) (le_refl 0)).1
  rw [Bool.eq_false_iff]
  intro htrue
  obtain ⟨px, py, -, -, hocc, -⟩ := h.mp htrue
  rw [createTrailMask_occupancy] at hocc
  exact absurd hocc (by norm_num)

/-- C7: on a fresh all-zero mask, marking a circle at p with radius r and then
querying collision at p with radius r while excluding p itself with extra
margin r returns false: the self exclusion neutralizes the just placed mark. -/
theorem claim_c7_self_exclusion (w h : ℤ) (p : Vector2D) (r : ℚ) (hr : 0 ≤ r) :
    collidesWithTrailExcludingPoints
      (markVisitedCircle (createTrailMask w h) p.x p.y r) p r [p] r = false := by
  rw [Bool.eq_false_iff]
  intro htrue
  rw [collides_eq_true_iff] at htrue
  obtain ⟨py, hpy, px, hpx, hd, hocc, hall⟩ := htrue
  rw [markVisitedCircle_widthPixels] at hocc hpx
  rw [markVisitedCircle_heightPixels] at hpy
  rw [markVisitedCircle_occupancy] at hocc
  split at hocc
  case isTrue hm =>
    obtain ⟨py0, hpy0, px0, hpx0, hd0, hidx⟩ := hm
    rw [createTrailMask_widthPixels] at hpx0 hidx
    rw [createTrailMask_heightPixels] at hpy0
    rw [mem_intRange] at hpy hpx hpy0 hpx0
    have hx1 : 0 ≤ px0 := le_trans (le_max_left 0 _) hpx0.1
    have hx2 : px0 ≤ w - 1 := le_trans hpx0.2 (min_le_left _ _)
    have hx3 : 0 ≤ px := le_trans (le_max_left 0 _) hpx.1
    have hx4 : px ≤ w - 1 := le_trans hpx.2 (min_le_left _ _)
    obtain ⟨hpxeq, hpyeq⟩ := flatIndex_inj (w := w) hx1 (by omega) hx3 (by omega) hidx
    have hptmem : p ∈ [p] := List.mem_singleton.mpr rfl
    have hfar := hall p hptmem
    rw [hpxeq, hpyeq] at hd0
    nlinarith [mul_nonneg hr hr, hd0, hfar]
  case isFalse =>
    rw [createTrailMask_occupancy] at hocc
    exact absurd hocc (by norm_num)

theorem claim_c7_witness :
    (0 : ℚ) ≤ 2 ∧
    collidesWithTrailExcludingPoints
      (markVisitedCircle (createTrailMask 10 10) (5 : ℚ) (5 : ℚ) 2) ⟨5, 5⟩ 2 [⟨5, 5⟩] 2
      = false :=
  ⟨by norm_num, claim_c7_self_exclusion 10 10 ⟨5, 5⟩ 2 (by norm_num)⟩

/-- C3, counterexample: with the fractional center (1/2, 1/2) and radius 1/5
the circle lies fully inside the 10 by 10 grid and the radius is nonnegative,
yet marking the circle and querying collision at the same center returns
false, because no integer grid cell lies within distance 1/5 of the center, so
the mark writes no cell at all. -/
theorem claim_c3_counterexample :
    (0 : ℚ) ≤ 1 / 5 ∧ (0 : ℚ) ≤ 1 / 2 - 1 / 5 ∧ (1 / 2 : ℚ) + 1 / 5 ≤ (10 : ℚ) - 1 ∧
    collidesWithTrailExcludingPoints
      (markVisitedCircle (createTrailMask 10 10) (1 / 2) (1 / 2) (1 / 5))
      ⟨1 / 2, 1 / 2⟩ (1 / 5) [] (1 / 5) = false := by
  refine ⟨by norm_num, by norm_num, by norm_num, ?_⟩
  rw [Bool.eq_false_iff]
  intro htrue
  rw [collides_eq_true_iff] at htrue
  obtain ⟨py, hpy, px, hpx, hd, -, -⟩ := htrue
  have h1 : (1 / 4 : ℚ) ≤ ((px : ℚ) - 1 / 2) * ((px : ℚ) - 1 / 2) := by
    rcases le_or_lt px 0 with h | h
    · have hc : (px : ℚ) ≤ 0 := by exact_mod_cast h
      nlinarith
    · have hc : (1 : ℚ) ≤ (px : ℚ) := by exact_mod_cast h
      nlinarith
  have h2 : (1 / 4 : ℚ) ≤ ((py : ℚ) - 1 / 2) * ((py : ℚ) - 1 / 2) := by
    rcases le_or_lt py 0 with h | h
    · have hc : (py : ℚ) ≤ 0 := by exact_mod_cast h
      nlinarith
    · have hc : (1 : ℚ) ≤ (py : ℚ) := by exact_mod_cast h
      nlinarith
  nlinarith [hd, h1, h2]

/-- C3, amended: for an integer center, as the game always supplies (every
call site rounds the center first), with the circle fully inside the grid,
marking the circle occupies the center cell itself (in particular a mark of
radius 0 occupies that single cell) and the subsequent collision query at the
same center with empty exclusion list returns true. At fractional centers
with small radius the original claim fails (see the counterexample). -/
theorem claim_c3_amended (m : TrailMask) (cx cy : ℤ) (r : ℚ) (hr : 0 ≤ r)
    (hx1 : 0 ≤ (cx : ℚ) - r) (hx2 : (cx : ℚ) + r ≤ (m.widthPixels : ℚ) - 1)
    (hy1 : 0 ≤ (cy : ℚ) - r) (hy2 : (cy : ℚ) + r ≤ (m.heightPixels : ℚ) - 1) :
    (markVisitedCircle m (cx : ℚ) (cy : ℚ) r).occupancy (cy * m.widthPixels + cx) = 1 ∧
    collidesWithTrailExcludingPoints (markVisitedCircle m (cx : ℚ) (cy : ℚ) r)
      ⟨(cx : ℚ), (cy : ℚ)⟩ r [] r = true := by
  have hcx0 : (0 : ℚ) ≤ (cx : ℚ) := by linarith
  have hcy0 : (0 : ℚ) ≤ (cy : ℚ) := by linarith
  have hcxw : (cx : ℚ) ≤ (m.widthPixels : ℚ) - 1 := by linarith
  have hcyh : (cy : ℚ) ≤ (m.heightPixels : ℚ) - 1 := by linarith
  have hmemx : cx ∈ intRange (max 0 ⌊(cx : ℚ) - r⌋)
      (min (m.widthPixels - 1) ⌈(cx : ℚ) + r⌉) := by
    rw [mem_intRange]
    constructor
    · apply max_le
      · exact_mod_cast hcx0
      · calc ⌊(cx : ℚ) - r⌋ ≤ ⌊(cx : ℚ)⌋ := Int.floor_le_floor (by linarith)
          _ = cx := Int.floor_intCast cx
    · apply le_min
      · have : (cx : ℚ) ≤ ((m.widthPixels - 1 : ℤ) : ℚ) := by push_cast; linarith
        exact_mod_cast this
      · calc cx = ⌈(cx : ℚ)⌉ := (Int.ceil_intCast cx).symm
          _ ≤ ⌈(cx : ℚ) + r⌉ := Int.ceil_le_ceil (by linarith)
  have hmemy : cy ∈ intRange (max 0 ⌊(cy : ℚ) - r⌋)
      (min (m.heightPixels - 1) ⌈(cy : ℚ) + r⌉) := by
    rw [mem_intRange]
    constructor
    · apply max_le
      · exact_mod_cast hcy0
      · calc ⌊(cy : ℚ) - r⌋ ≤ ⌊(cy : ℚ)⌋ := Int.floor_le_floor (by linarith)
          _ = cy := Int.floor_intCast cy
    · apply le_min
      · have : (cy : ℚ) ≤ ((m.heightPixels - 1 : ℤ) : ℚ) := by push_cast; linarith
        exact_mod_cast this
      · calc cy = ⌈(cy : ℚ)⌉ := (Int.ceil_intCast cy).symm
          _ ≤ ⌈(cy : ℚ) + r⌉ := Int.ceil_le_ceil (by linarith)
  have hdist : ((cx : ℚ) - (cx : ℚ)) * ((cx : ℚ) - (cx : ℚ))
      + ((cy : ℚ) - (cy : ℚ)) * ((cy : ℚ) - (cy : ℚ)) ≤ r * r := by
    simp only [sub_self, mul_zero, zero_mul, add_zero]
    positivity
  have hocc : (markVisitedCircle m (cx : ℚ) (cy : ℚ) r).occupancy
      (cy * m.widthPixels + cx) = 1 := by
    rw [markVisitedCircle_occupancy]
    exact if_pos ⟨cy, hmemy, cx, hmemx, hdist, rfl⟩
  refine ⟨hocc, ?_⟩
  rw [collides_eq_true_iff]
  refine ⟨cy, ?_, cx, ?_, hdist, ?_, ?_⟩
  · rw [markVisitedCircle_heightPixels]
    exact hmemy
  · rw [markVisitedCircle_widthPixels]
    exact hmemx
  · rw [markVisitedCircle_widthPixels]
    exact hocc
  · intro q hq
    exact absurd hq (List.not_mem_nil q)

theorem claim_c3_witness :
    (0 : ℚ) ≤ 2 ∧ (0 : ℚ) ≤ ((5 : ℤ) : ℚ) - 2
      ∧ ((5 : ℤ) : ℚ) + 2 ≤ (((createTrailMask 10 10).widthPixels : ℤ) : ℚ) - 1 ∧
    collidesWithTrailExcludingPoints
      (markVisitedCircle (createTrailMask 10 10) ((5 : ℤ) : ℚ) ((5 : ℤ) : ℚ) 2)
      ⟨((5 : ℤ) : ℚ), ((5 : ℤ) : ℚ)⟩ 2 [] 2 = true := by
  refine ⟨by norm_num, by norm_num, by norm_num [createTrailMask_widthPixels], ?_⟩
  exact (claim_c3_amended (createTrailMask 10 10) 5 5 2 (by norm_num) (by norm_num)
    (by norm_num [createTrailMask_widthPixels]) (by norm_num)
    (by norm_num [createTrailMask_heightPixels])).2

/-- C10: markVisitedCircle only adds trail. Every occupied flat entry stays
occupied; every grid cell whose squared distance to the center exceeds the
squared radius keeps its previous occupancy; and every grid cell outside the
clamped bounding box keeps its previous occupancy. -/
theorem claim_c10_mark_frame (m : TrailMask) (cx cy r : ℚ) :
    (∀ j : ℤ, m.occupancy j = 1 → (markVisitedCircle m cx cy r).occupancy j = 1) ∧
    (∀ px py : ℤ, 0 ≤ px → px < m.widthPixels → 0 ≤ py → py < m.heightPixels →
      r * r < ((px : ℚ) - cx) * ((px : ℚ) - cx) + ((py : ℚ) - cy) * ((py : ℚ) - cy) →
      (markVisitedCircle m cx cy r).occupancy (py * m.widthPixels + px)
        = m.occupancy (py * m.widthPixels + px)) ∧
    (∀ px py : ℤ, 0 ≤ px → px < m.widthPixels → 0 ≤ py → py < m.heightPixels →
      (px < max 0 ⌊cx - r⌋ ∨ min (m.widthPixels - 1) ⌈cx + r⌉ < px
        ∨ py < max 0 ⌊cy - r⌋ ∨ min (m.heightPixels - 1) ⌈cy + r⌉ < py) →
      (markVisitedCircle m cx cy r).occupancy (py * m.widthPixels + px)
        = m.occupancy (py * m.widthPixels + px)) := by
  refine ⟨?_, ?_, ?_⟩
  · intro j hj
    rw [markVisitedCircle_occupancy]
    split
    · rfl
    · exact hj
  · intro px py hx0 hxw hy0 hyh hfar
    rw [markVisitedCircle_occupancy]
    rw [if_neg ?_]
    rintro ⟨py0, hpy0, px0, hpx0, hd0, hidx⟩
    rw [mem_intRange] at hpy0 hpx0
    have hx1 : 0 ≤ px0 := le_trans (le_max_left 0 _) hpx0.1
    have hx2 : px0 ≤ m.widthPixels - 1 := le_trans hpx0.2 (min_le_left _ _)
    obtain ⟨hpxeq, hpyeq⟩ :=
      flatIndex_inj (w := m.widthPixels) hx1 (by omega) hx0 (by omega) hidx
    rw [hpxeq, hpyeq] at hd0
    linarith
  · intro px py hx0 hxw hy0 hyh hout
    rw [markVisitedCircle_occupancy]
    rw [if_neg ?_]
    rintro ⟨py0, hpy0, px0, hpx0, hd0, hidx⟩
    rw [mem_intRange] at hpy0 hpx0
    have hx1 : 0 ≤ px0 := le_trans (le_max_left 0 _) hpx0.1
    have hx2 : px0 ≤ m.widthPixels - 1 := le_trans hpx0.2 (min_le_left _ _)
    obtain ⟨hpxeq, hpyeq⟩ :=
      flatIndex_inj (w := m.widthPixels) hx1 (by omega) hx0 (by omega) hidx
    subst hpxeq
    subst hpyeq
    rcases hout with h | h | h | h
    · omega
    · omega
    · omega
    · omega

theorem claim_c10_witness :
    ((markVisitedCircle (createTrailMask 5 5) 1 1 0).occupancy 6 = 1) ∧
    ((markVisitedCircle (markVisitedCircle (createTrailMask 5 5) 1 1 0) 3 3 1).occupancy 6
      = 1) ∧
    ((4 : ℚ) * 4 < ((1 : ℚ) - 3) * ((1 : ℚ) - 3) + ((1 : ℚ) - 3) * ((1 : ℚ) - 3)
      → False) ∧
    ((1 : ℚ) * 1 < ((1 : ℚ) - 3) * ((1 : ℚ) - 3) + ((1 : ℚ) - 3) * ((1 : ℚ) - 3)) ∧
    ((markVisitedCircle (markVisitedCircle (createTrailMask 5 5) 1 1 0) 3 3 1).occupancy
        (1 * (markVisitedCircle (createTrailMask 5 5) 1 1 0).widthPixels + 1)
      = (markVisitedCircle (createTrailMask 5 5) 1 1 0).occupancy
        (1 * (markVisitedCircle (createTrailMask 5 5) 1 1 0).widthPixels + 1)) := by
  have hbase : (markVisitedCircle (createTrailMask 5 5) 1 1 0).occupancy 6 = 1 := by
    rw [markVisitedCircle_occupancy]
    rw [if_pos ?_]
    refine ⟨1, ?_, 1, ?_, by norm_num, by norm_num [createTrailMask_widthPixels]⟩
    · rw [mem_intRange]
      constructor
      · norm_num
      · norm_num [createTrailMask_heightPixels]
    · rw [mem_intRange]
      constructor
      · norm_num
      · norm_num [createTrailMask_widthPixels]
  have hmono := (claim_c10_mark_frame (markVisitedCircle (createTrailMask 5 5) 1 1 0)
    3 3 1).1 6 hbase
  have hframe := (claim_c10_mark_frame (markVisitedCircle (createTrailMask 5 5) 1 1 0)
    3 3 1).2.1 1 1
    (by norm_num) (by norm_num [markVisitedCircle_widthPixels, createTrailMask_widthPixels])
    (by norm_num) (by norm_num [markVisitedCircle_heightPixels, createTrailMask_heightPixels])
    (by norm_num)
  refine ⟨hbase, hmono, by norm_num, by norm_num, ?_⟩
  simp only [markVisitedCircle_widthPixels] at hframe ⊢
  exact hframe

/-- pushRecent: append the point, then drop the oldest entry when the buffer
exceeds its capacity of 10 (Array.prototype.shift removes one front entry). -/
def pushRecent (recentPositions : List Vector2D) (point : Vector2D) : List Vector2D :=
  let pushed := recentPositions ++ [point]
  if recentIgnoreFrameCount < pushed.length then pushed.tail else pushed

/-- pushGapCorridor: append the point, then splice away the front overflow
beyond the capacity of 600 (splice removes length minus capacity front
entries). -/
def pushGapCorridor (gapCorridor : List Vector2D) (point : Vector2D) : List Vector2D :=
  let pushed := gapCorridor ++ [point]
  if corridorMaxPoints < pushed.length then
    pushed.drop (pushed.length - corridorMaxPoints)
  else pushed

theorem pushGapCorridor_eq (l : List Vector2D) (p : Vector2D) :
    pushGapCorridor l p = (l ++ [p]).drop ((l ++ [p]).length - corridorMaxPoints) := by
  rw [pushGapCorridor]
  split
  · rfl
  · next h => rw [Nat.sub_eq_zero_of_le (not_lt.mp h), List.drop_zero]

theorem pushRecent_eq (l : List Vector2D) (p : Vector2D)
    (hl : l.length ≤ recentIgnoreFrameCount) :
    pushRecent l p = (l ++ [p]).drop ((l ++ [p]).length - recentIgnoreFrameCount) := by
  rw [pushRecent]
  split
  · next h =>
    have hlen : (l ++ [p]).length - recentIgnoreFrameCount = 1 := by
      rw [List.length_append] at h ⊢
      simp only [List.length_singleton] at h ⊢
      omega
    rw [hlen, List.drop_one]
  · next h => rw [Nat.sub_eq_zero_of_le (not_lt.mp h), List.drop_zero]

theorem pushGapCorridor_length (l : List Vector2D) (p : Vector2D) :
    (pushGapCorridor l p).length = min (l.length + 1) corridorMaxPoints := by
  rw [pushGapCorridor_eq, List.length_drop, List.length_append, List.length_singleton]
  omega

theorem pushRecent_length (l : List Vector2D) (p : Vector2D)
    (hl : l.length ≤ recentIgnoreFrameCount) :
    (pushRecent l p).length = min (l.length + 1) recentIgnoreFrameCount := by
  rw [pushRecent_eq l p hl, List.length_drop, List.length_append, List.length_singleton]
  omega

theorem foldl_pushGapCorridor (qs : List Vector2D) :
    ∀ l : List Vector2D, l.length ≤ corridorMaxPoints →
      qs.foldl pushGapCorridor l = (l ++ qs).drop ((l ++ qs).length - corridorMaxPoints) := by
  induction qs with
  | nil =>
    intro l hl
    rw [List.append_nil, List.foldl_nil, Nat.sub_eq_zero_of_le hl, List.drop_zero]
  | cons p t ih =>
    intro l hl
    have hlen : (pushGapCorridor l p).length ≤ corridorMaxPoints := by
      rw [pushGapCorridor_length]
      omega
    rw [List.foldl_cons, ih (pushGapCorridor l p) hlen, pushGapCorridor_eq]
    have hk : (l ++ [p]).length - corridorMaxPoints ≤ (l ++ [p]).length := Nat.sub_le _ _
    rw [← List.drop_append_of_le_length hk, List.drop_drop]
    simp only [List.append_assoc, List.singleton_append]
    have harith : (l ++ [p]).length - corridorMaxPoints +
        (((l ++ p :: t).drop ((l ++ [p]).length - corridorMaxPoints)).length
          - corridorMaxPoints)
        = (l ++ p :: t).length - corridorMaxPoints := by
      simp only [List.length_drop, List.length_append, List.length_singleton,
        List.length_nil, List.length_cons]
      omega
    rw [harith]

theorem foldl_pushRecent (ps : List Vector2D) :
    ∀ l : List Vector2D, l.length ≤ recentIgnoreFrameCount →
      ps.foldl pushRecent l = (l ++ ps).drop ((l ++ ps).length - recentIgnoreFrameCount) := by
  induction ps with
  | nil =>
    intro l hl
    rw [List.append_nil, List.foldl_nil, Nat.sub_eq_zero_of_le hl, List.drop_zero]
  | cons p t ih =>
    intro l hl
    have hlen : (pushRecent l p).length ≤ recentIgnoreFrameCount := by
      rw [pushRecent_length l p hl]
      omega
    rw [List.foldl_cons, ih (pushRecent l p) hlen, pushRecent_eq l p hl]
    have hk : (l ++ [p]).length - recentIgnoreFrameCount ≤ (l ++ [p]).length := Nat.sub_le _ _
    rw [← List.drop_append_of_le_length hk, List.drop_drop]
    simp only [List.append_assoc, List.singleton_append]
    have harith : (l ++ [p]).length - recentIgnoreFrameCount +
        (((l ++ p :: t).drop ((l ++ [p]).length - recentIgnoreFrameCount)).length
          - recentIgnoreFrameCount)
        = (l ++ p :: t).length - recentIgnoreFrameCount := by
      simp only [List.length_drop, List.length_append, List.length_singleton,
        List.length_nil, List.length_cons]
      omega
    rw [harith]

theorem mem_pushGapCorridor_self (l : List Vector2D) (p : Vector2D) :
    p ∈ pushGapCorridor l p := by
  rw [pushGapCorridor_eq]
  have hk : (l ++ [p]).length - corridorMaxPoints ≤ l.length := by
    rw [List.length_append, List.length_singleton]
    have : (1 : ℕ) ≤ corridorMaxPoints := by norm_num [corridorMaxPoints]
    omega
  rw [List.drop_append_of_le_length hk]
  exact List.mem_append_right _ (List.mem_singleton.mpr rfl)

/-- C8: starting from the empty buffers that every round begins with, any
sequence of pushes leaves exactly the most recent entries in insertion order:
the recent buffer equals the pushed sequence with all but the last 10 entries
dropped from the front, the gap corridor with all but the last 600; hence the
capacities 10 and 600 are never exceeded and eviction always removes the
oldest entries, preserving the order of the rest. -/
theorem claim_c8_buffer_capacity (ps qs : List Vector2D) :
    ps.foldl pushRecent [] = ps.drop (ps.length - recentIgnoreFrameCount) ∧
    qs.foldl pushGapCorridor [] = qs.drop (qs.length - corridorMaxPoints) ∧
    (ps.foldl pushRecent []).length ≤ recentIgnoreFrameCount ∧
    (qs.foldl pushGapCorridor []).length ≤ corridorMaxPoints := by
  have h1 := foldl_pushRecent ps [] (by simp)
  have h2 := foldl_pushGapCorridor qs [] (by simp)
  rw [List.nil_append] at h1 h2
  refine ⟨h1, h2, ?_, ?_⟩
  · rw [h1, List.length_drop]
    omega
  · rw [h2, List.length_drop]
    omega

/-- initGapState: Solid phase, with a countdown drawn from the interval
between the minimum and maximum gap intervals (the Math.random draw is
injected as the parameter). -/
def initGapState (intervalDraw : ℚ) : GapState :=
  { isActive := false, timeUntilNextGap := intervalDraw, remainingGapTime := 0 }

/-- updateGap: advance the gap timers by the delta time; on expiry of the
active phase timer, flip the phase and install the injected random draw (the
gap duration draw when entering Gap, the next interval draw when returning to
Solid). The decremented timer keeps its overshoot value, as in the source. -/
def updateGap (gap : GapState) (deltaTimeSeconds : ℚ) (draw : ℚ) : GapState :=
  if gapsEnabled = false then gap
  else if gap.isActive then
    let remaining := gap.remainingGapTime - deltaTimeSeconds
    if remaining ≤ 0 then
      { isActive := false, timeUntilNextGap := draw, remainingGapTime := remaining }
    else { gap with remainingGapTime := remaining }
  else
    let untilNext := gap.timeUntilNextGap - deltaTimeSeconds
    if untilNext ≤ 0 then
      { isActive := true, timeUntilNextGap := untilNext, remainingGapTime := draw }
    else { gap with timeUntilNextGap := untilNext }

/-- Run a sequence of updateGap calls; each call carries its delta time and
the random draw it would use at a transition. -/
def runGap (g : GapState) (calls : List (ℚ × ℚ)) : GapState :=
  calls.foldl (fun g c => updateGap g c.1 c.2) g

theorem updateGap_solid_stay (g : GapState) (dt draw : ℚ) (hg : g.isActive = false)
    (hstay : ¬ g.timeUntilNextGap - dt ≤ 0) :
    updateGap g dt draw
      = { isActive := false, timeUntilNextGap := g.timeUntilNextGap - dt,
          remainingGapTime := g.remainingGapTime } := by
  rw [updateGap]
  rw [if_neg (by norm_num [gapsEnabled]), hg]
  simp only [Bool.false_eq_true, if_false]
  rw [if_neg hstay]

theorem runGap_solid (calls : List (ℚ × ℚ)) :
    ∀ t0 rem : ℚ, (∀ c ∈ calls, 0 ≤ c.1) →
      (calls.map Prod.fst).sum < t0 →
      runGap { isActive := false, timeUntilNextGap := t0, remainingGapTime := rem } calls
        = { isActive := false, timeUntilNextGap := t0 - (calls.map Prod.fst).sum,
            remainingGapTime := rem } := by
  induction calls with
  | nil =>
    intro t0 rem hpos hsum
    simp only [runGap, List.foldl_nil, List.map_nil, List.sum_nil, sub_zero]
  | cons c t ih =>
    intro t0 rem hpos hsum
    have hsum0 : 0 ≤ (t.map Prod.fst).sum :=
      List.sum_nonneg (by
        intro x hx
        obtain ⟨cc, hcc, rfl⟩ := List.mem_map.mp hx
        exact hpos cc (List.mem_cons_of_mem c hcc))
    have hc1 : 0 ≤ c.1 := hpos c (List.mem_cons_self c t)
    have hsumc : (c.1 + (t.map Prod.fst).sum) < t0 := by
      simpa using hsum
    have hstay : ¬ t0 - c.1 ≤ 0 := by
      push_neg
      linarith
    have hstep := updateGap_solid_stay
      { isActive := false, timeUntilNextGap := t0, remainingGapTime := rem } c.1 c.2 rfl hstay
    simp only [runGap, List.foldl_cons] at *
    rw [hstep, ih (t0 - c.1) rem
      (fun x hx => hpos x (List.mem_cons_of_mem c hx)) (by linarith)]
    simp only [List.map_cons, List.sum_cons]
    rw [sub_sub]

theorem updateGap_gap_stay (g : GapState) (dt draw : ℚ) (hg : g.isActive = true)
    (hstay : ¬ g.remainingGapTime - dt ≤ 0) :
    updateGap g dt draw
      = { isActive := true, timeUntilNextGap := g.timeUntilNextGap,
          remainingGapTime := g.remainingGapTime - dt } := by
  rw [updateGap]
  rw [if_neg (by norm_num [gapsEnabled]), hg]
  simp only [if_true]
  rw [if_neg hstay]

theorem runGap_gap (calls : List (ℚ × ℚ)) :
    ∀ tn rem0 : ℚ, (∀ c ∈ calls, 0 ≤ c.1) →
      (calls.map Prod.fst).sum < rem0 →
      runGap { isActive := true, timeUntilNextGap := tn, remainingGapTime := rem0 } calls
        = { isActive := true, timeUntilNextGap := tn,
            remainingGapTime := rem0 - (calls.map Prod.fst).sum } := by
  induction calls with
  | nil =>
    intro tn rem0 hpos hsum
    simp only [runGap, List.foldl_nil, List.map_nil, List.sum_nil, sub_zero]
  | cons c t ih =>
    intro tn rem0 hpos hsum
    have hsum0 : 0 ≤ (t.map Prod.fst).sum :=
      List.sum_nonneg (by
        intro x hx
        obtain ⟨cc, hcc, rfl⟩ := List.mem_map.mp hx
        exact hpos cc (List.mem_cons_of_mem c hcc))
    have hc1 : 0 ≤ c.1 := hpos c (List.mem_cons_self c t)
    have hsumc : (c.1 + (t.map Prod.fst).sum) < rem0 := by
      simpa using hsum
    have hstay : ¬ rem0 - c.1 ≤ 0 := by
      push_neg
      linarith
    have hstep := updateGap_gap_stay
      { isActive := true, timeUntilNextGap := tn, remainingGapTime := rem0 } c.1 c.2 rfl hstay
    simp only [runGap, List.foldl_cons] at *
    rw [hstep, ih tn (rem0 - c.1)
      (fun x hx => hpos x (List.mem_cons_of_mem c hx)) (by linarith)]
    simp only [List.map_cons, List.sum_cons]
    rw [sub_sub]

theorem updateGap_solid_fire (g : GapState) (dt draw : ℚ) (hg : g.isActive = false)
    (hfire : g.timeUntilNextGap - dt ≤ 0) :
    updateGap g dt draw
      = { isActive := true, timeUntilNextGap := g.timeUntilNextGap - dt,
          remainingGapTime := draw } := by
  rw [updateGap, if_neg (by norm_num [gapsEnabled]), hg]
  simp only [Bool.false_eq_true, if_false]
  rw [if_pos hfire]

theorem updateGap_gap_fire (g : GapState) (dt draw : ℚ) (hg : g.isActive = true)
    (hfire : g.remainingGapTime - dt ≤ 0) :
    updateGap g dt draw
      = { isActive := false, timeUntilNextGap := draw,
          remainingGapTime := g.remainingGapTime - dt } := by
  rw [updateGap, if_neg (by norm_num [gapsEnabled]), hg]
  simp only [if_true]
  rw [if_pos hfire]

/-- C5, counterexample: starting from a Solid countdown draw of 2 seconds
(inside the configured interval range), a single updateGap call with the
nonnegative delta time 100 transitions to Gap at once, so the total delta
time accumulated in Solid before the first transition is 100, strictly above
maxIntervalSeconds = 3: delta time is unclamped, so the claimed upper bound
on the accumulated Solid time is false. -/
theorem claim_c5_counterexample :
    minIntervalSeconds ≤ 2 ∧ (2 : ℚ) ≤ maxIntervalSeconds ∧ (0 : ℚ) ≤ 100 ∧
    minDurationSeconds ≤ 1 / 4 ∧ (1 / 4 : ℚ) ≤ maxDurationSeconds ∧
    (initGapState 2).isActive = false ∧
    (updateGap (initGapState 2) 100 (1 / 4)).isActive = true ∧
    maxIntervalSeconds < 100 := by
  refine ⟨by norm_num [minIntervalSeconds], by norm_num [maxIntervalSeconds],
    by norm_num, by norm_num [minDurationSeconds], by norm_num [maxDurationSeconds],
    rfl, ?_, by norm_num [maxIntervalSeconds]⟩
  rw [updateGap_solid_fire (initGapState 2) 100 (1 / 4) rfl (by norm_num [initGapState])]

/-- C5, amended: phases strictly alternate and no transition happens while a
phase countdown is still positive; entering Gap installs the drawn duration
and entering Solid installs the drawn countdown; the delta time accumulated
in a phase up to and including the transition tick is at least the drawn
value and hence at least the minimum bound, and the accumulated time
excluding the final tick is strictly below the maximum bound. The original
claim that the whole accumulated time also stays at most the maximum bound
fails because the final unclamped tick may overshoot (see the
counterexample). -/
theorem claim_c5_amended :
    (∀ (t0 : ℚ) (pre : List (ℚ × ℚ)) (dt draw : ℚ),
      minIntervalSeconds ≤ t0 → t0 ≤ maxIntervalSeconds →
      (∀ c ∈ pre, 0 ≤ c.1) → 0 ≤ dt →
      (pre.map Prod.fst).sum < t0 → t0 ≤ (pre.map Prod.fst).sum + dt →
      (runGap (initGapState t0) pre).isActive = false ∧
      (updateGap (runGap (initGapState t0) pre) dt draw).isActive = true ∧
      (updateGap (runGap (initGapState t0) pre) dt draw).remainingGapTime = draw ∧
      minIntervalSeconds ≤ (pre.map Prod.fst).sum + dt ∧
      (pre.map Prod.fst).sum < maxIntervalSeconds) ∧
    (∀ (tn d0 : ℚ) (pre : List (ℚ × ℚ)) (dt draw : ℚ),
      minDurationSeconds ≤ d0 → d0 ≤ maxDurationSeconds →
      (∀ c ∈ pre, 0 ≤ c.1) → 0 ≤ dt →
      (pre.map Prod.fst).sum < d0 → d0 ≤ (pre.map Prod.fst).sum + dt →
      (runGap { isActive := true, timeUntilNextGap := tn, remainingGapTime := d0 }
        pre).isActive = true ∧
      (updateGap (runGap { isActive := true, timeUntilNextGap := tn, remainingGapTime := d0 }
        pre) dt draw).isActive = false ∧
      (updateGap (runGap { isActive := true, timeUntilNextGap := tn, remainingGapTime := d0 }
        pre) dt draw).timeUntilNextGap = draw ∧
      minDurationSeconds ≤ (pre.map Prod.fst).sum + dt ∧
      (pre.map Prod.fst).sum < maxDurationSeconds) := by
  constructor
  · intro t0 pre dt draw hmin hmax hpos hdt hsum hfire
    have hrun := runGap_solid pre t0 0 hpos hsum
    rw [initGapState, hrun]
    have hstep := updateGap_solid_fire
      { isActive := false, timeUntilNextGap := t0 - (pre.map Prod.fst).sum,
        remainingGapTime := 0 } dt draw rfl (by simp only; linarith)
    rw [hstep]
    refine ⟨rfl, rfl, rfl, by linarith, by linarith⟩
  · intro tn d0 pre dt draw hmin hmax hpos hdt hsum hfire
    have hrun := runGap_gap pre tn d0 hpos hsum
    rw [hrun]
    have hstep := updateGap_gap_fire
      { isActive := true, timeUntilNextGap := tn,
        remainingGapTime := d0 - (pre.map Prod.fst).sum } dt draw rfl (by simp only; linarith)
    rw [hstep]
    refine ⟨rfl, rfl, rfl, by linarith, by linarith⟩

theorem claim_c5_witness :
    ((runGap (initGapState 2) [((1 : ℚ), (1 / 4 : ℚ)), ((1 / 2 : ℚ), (1 / 4 : ℚ))]).isActive
      = false ∧
     (updateGap (runGap (initGapState 2)
        [((1 : ℚ), (1 / 4 : ℚ)), ((1 / 2 : ℚ), (1 / 4 : ℚ))]) 1 (1 / 4)).isActive = true ∧
     (updateGap (runGap (initGapState 2)
        [((1 : ℚ), (1 / 4 : ℚ)), ((1 / 2 : ℚ), (1 / 4 : ℚ))]) 1 (1 / 4)).remainingGapTime
      = 1 / 4 ∧
     minIntervalSeconds ≤
      (([((1 : ℚ), (1 / 4 : ℚ)), ((1 / 2 : ℚ), (1 / 4 : ℚ))].map Prod.fst).sum) + 1 ∧
     (([((1 : ℚ), (1 / 4 : ℚ)), ((1 / 2 : ℚ), (1 / 4 : ℚ))].map Prod.fst).sum)
      < maxIntervalSeconds) ∧
    ((runGap { isActive := true, timeUntilNextGap := -1, remainingGapTime := 1 / 4 }
        ([] : List (ℚ × ℚ))).isActive = true ∧
     (updateGap (runGap { isActive := true, timeUntilNextGap := -1, remainingGapTime := 1 / 4 }
        ([] : List (ℚ × ℚ))) 1 2).isActive = false ∧
     (updateGap (runGap { isActive := true, timeUntilNextGap := -1, remainingGapTime := 1 / 4 }
        ([] : List (ℚ × ℚ))) 1 2).timeUntilNextGap = 2 ∧
     minDurationSeconds ≤ ((([] : List (ℚ × ℚ)).map Prod.fst).sum) + 1 ∧
     ((([] : List (ℚ × ℚ)).map Prod.fst).sum) < maxDurationSeconds) := by
  constructor
  · exact claim_c5_amended.1 2 [((1 : ℚ), (1 / 4 : ℚ)), ((1 / 2 : ℚ), (1 / 4 : ℚ))] 1 (1 / 4)
      (by norm_num [minIntervalSeconds]) (by norm_num [maxIntervalSeconds])
      (by
        intro c hc
        rcases List.mem_cons.mp hc with rfl | hc2
        · norm_num
        · rcases List.mem_cons.mp hc2 with rfl | hc3
          · norm_num
          · exact absurd hc3 (List.not_mem_nil c))
      (by norm_num)
      (by simp only [List.map_cons, List.map_nil, List.sum_cons, List.sum_nil]; norm_num)
      (by simp only [List.map_cons, List.map_nil, List.sum_cons, List.sum_nil]; norm_num)
  · exact claim_c5_amended.2 (-1) (1 / 4) ([] : List (ℚ × ℚ)) 1 2
      (by norm_num [minDurationSeconds]) (by norm_num [maxDurationSeconds])
      (by intro c hc; exact absurd hc (List.not_mem_nil c))
      (by norm_num)
      (by simp only [List.map_nil, List.sum_nil]; norm_num)
      (by simp only [List.map_nil, List.sum_nil]; norm_num)

/-- hitsBorder: true when the circle of the given radius centered at (x, y)
leaves the safe rectangle, the surface inset by the border inset, the border
thickness and the radius itself (strict inequalities, so a point exactly on
the safe-rectangle boundary does not hit). -/
def hitsBorder (x y width height radius : ℚ) : Bool :=
  let minX : ℚ := insetPixels + thicknessPixels + radius
  let maxX : ℚ := width - insetPixels - thicknessPixels - radius
  let minY : ℚ := insetPixels + thicknessPixels + radius
  let maxY : ℚ := height - insetPixels - thicknessPixels - radius
  decide (x < minX) || decide (x > maxX) || decide (y < minY) || decide (y > maxY)

theorem hitsBorder_eq_false_iff (x y width height radius : ℚ) :
    hitsBorder x y width height radius = false ↔
      (insetPixels + thicknessPixels + radius ≤ x ∧
       x ≤ width - insetPixels - thicknessPixels - radius ∧
       insetPixels + thicknessPixels + radius ≤ y ∧
       y ≤ height - insetPixels - thicknessPixels - radius) := by
  simp only [hitsBorder, Bool.or_eq_false_iff, decide_eq_false_iff_not, not_lt, gt_iff_lt]
  tauto

/-- The environment of the step: the trigonometric functions of the host and
the irrational turn speed PI/2, which have no exact rational embedding; every
theorem below holds for all such environments. -/
structure Env where
  cosApprox : ℚ → ℚ
  sinApprox : ℚ → ℚ
  turnSpeedRadiansPerSecond : ℚ

/-- Per-tick external inputs: the wall-clock delta, the pressed turn keys of
both players, the surface client size, and the random draws the two gap
schedulers would use this tick. -/
structure TickInput where
  deltaTimeSeconds : ℚ
  p1TurnLeft : Bool
  p1TurnRight : Bool
  p2TurnLeft : Bool
  p2TurnRight : Bool
  clientWidth : ℚ
  clientHeight : ℚ
  gapDraw1 : ℚ
  gapDraw2 : ℚ

/-- The mutable round state of the game loop. -/
structure RoundState where
  isMoving : Bool
  hasRoundEnded : Bool
  trailMask : TrailMask
  playerOne : PlayerState
  playerTwo : PlayerState

/-- The rotation block of the step: subtract the turn speed times delta when
the left key is down, add it when the right key is down; applies always. -/
def applyTurn (env : Env) (angle : ℚ) (left right : Bool) (dt : ℚ) : ℚ :=
  let a1 : ℚ := if left then angle - env.turnSpeedRadiansPerSecond * dt else angle
  if right then a1 + env.turnSpeedRadiansPerSecond * dt else a1

def rotatedP1 (env : Env) (inp : TickInput) (s : RoundState) : PlayerState :=
  { s.playerOne with
    angleRadians := applyTurn env s.playerOne.angleRadians inp.p1TurnLeft inp.p1TurnRight
      inp.deltaTimeSeconds }

def rotatedP2 (env : Env) (inp : TickInput) (s : RoundState) : PlayerState :=
  { s.playerTwo with
    angleRadians := applyTurn env s.playerTwo.angleRadians inp.p2TurnLeft inp.p2TurnRight
      inp.deltaTimeSeconds }

/-- The gap clocks advance for each living player before movement. -/
def gapUpdatedP1 (env : Env) (inp : TickInput) (s : RoundState) : PlayerState :=
  let p := rotatedP1 env inp s
  if p.isAlive then { p with gap := updateGap p.gap inp.deltaTimeSeconds inp.gapDraw1 }
  else p

def gapUpdatedP2 (env : Env) (inp : TickInput) (s : RoundState) : PlayerState :=
  let p := rotatedP2 env inp s
  if p.isAlive then { p with gap := updateGap p.gap inp.deltaTimeSeconds inp.gapDraw2 }
  else p

/-- The candidate position of the advance step. -/
def candidateX (env : Env) (p : PlayerState) (dt : ℚ) : ℚ :=
  p.positionPixels.x + env.cosApprox p.angleRadians * forwardSpeedPixelsPerSecond * dt

def candidateY (env : Env) (p : PlayerState) (dt : ℚ) : ℚ :=
  p.positionPixels.y + env.sinApprox p.angleRadians * forwardSpeedPixelsPerSecond * dt

/-- One player movement resolution, the shared body of the two per-player
blocks of the step: skip when dead; die on the border; die on an unexcluded
trail collision; otherwise commit the candidate position, mark the trail and
push the recent point in Solid, push the gap corridor point in Gap, and add
the delta time to the score. Returns the updated player and trail mask. -/
def movePlayer (env : Env) (trailMask : TrailMask) (p : PlayerState)
    (dt w h : ℚ) (otherGapCorridor : List Vector2D) : PlayerState × TrailMask :=
  if p.isAlive then
    let nextX : ℚ := candidateX env p dt
    let nextY : ℚ := candidateY env p dt
    if hitsBorder nextX nextY w h radiusPixels then
      ({ p with isAlive := false }, trailMask)
    else
      let ignorePoints : List Vector2D := p.recentPositions ++ p.gapCorridor ++ otherGapCorridor
      if collidesWithTrailExcludingPoints trailMask
          ⟨((jsRound nextX : ℤ) : ℚ), ((jsRound nextY : ℤ) : ℚ)⟩ radiusPixels ignorePoints
          (max extraIgnoreMarginPixels corridorExtraMarginPixels) then
        ({ p with isAlive := false }, trailMask)
      else if p.gap.isActive = false then
        ({ p with
            positionPixels := ⟨nextX, nextY⟩,
            recentPositions := pushRecent p.recentPositions
              ⟨((jsRound nextX : ℤ) : ℚ), ((jsRound nextY : ℤ) : ℚ)⟩,
            scoreSeconds := p.scoreSeconds + dt },
         markVisitedCircle trailMask ((jsRound nextX : ℤ) : ℚ) ((jsRound nextY : ℤ) : ℚ)
           radiusPixels)
      else
        ({ p with
            positionPixels := ⟨nextX, nextY⟩,
            gapCorridor := pushGapCorridor p.gapCorridor
              ⟨((jsRound nextX : ℤ) : ℚ), ((jsRound nextY : ℤ) : ℚ)⟩,
            scoreSeconds := p.scoreSeconds + dt },
         trailMask)
  else (p, trailMask)

/-- Player one resolves first, against the trail mask as it stands at the
start of the tick and excluding player two's current gap corridor. -/
def p1Resolved (env : Env) (inp : TickInput) (s : RoundState) : PlayerState × TrailMask :=
  movePlayer env s.trailMask (gapUpdatedP1 env inp s) inp.deltaTimeSeconds
    inp.clientWidth inp.clientHeight (gapUpdatedP2 env inp s).gapCorridor

/-- The exclusion list player two's collision check uses: own recent
positions, own gap corridor, and player one's gap corridor as it stands after
player one's resolution in the same tick. -/
def p2IgnoreList (env : Env) (inp : TickInput) (s : RoundState) : List Vector2D :=
  (gapUpdatedP2 env inp s).recentPositions ++ (gapUpdatedP2 env inp s).gapCorridor
    ++ (p1Resolved env inp s).1.gapCorridor

/-- One tick of the game loop: rotation always applies; while the round is
moving and not ended, the gap clocks of living players advance, player one
resolves movement and collision, then player two resolves against the updated
trail mask and player one's updated gap corridor, and the round ends when
both players are dead. -/
def step (env : Env) (inp : TickInput) (s : RoundState) : RoundState :=
  if s.isMoving && !s.hasRoundEnded then
    let r1 := p1Resolved env inp s
    let r2 := movePlayer env r1.2 (gapUpdatedP2 env inp s) inp.deltaTimeSeconds
      inp.clientWidth inp.clientHeight r1.1.gapCorridor
    { isMoving := if !r1.1.isAlive && !r2.1.isAlive then false else s.isMoving,
      hasRoundEnded := if !r1.1.isAlive && !r2.1.isAlive then true else s.hasRoundEnded,
      trailMask := r2.2,
      playerOne := r1.1,
      playerTwo := r2.1 }
  else
    { s with playerOne := rotatedP1 env inp s, playerTwo := rotatedP2 env inp s }

/-- resetRound: fresh round state, with the surface size and the random spawn
positions and gap draws injected: a new all-zero trail mask sized to the
surface, both players alive with zero score, angle zero, empty buffers and
fresh gap states; the two spawn circles are marked on the mask and the
rounded spawn points pushed to the recent buffers; movement off, round not
ended. -/
def resetRound (widthCssPixels heightCssPixels : ℤ) (spawn1 spawn2 : Vector2D)
    (gapDraw1 gapDraw2 : ℚ) : RoundState :=
  let mask0 := createTrailMask widthCssPixels heightCssPixels
  let mask1 := markVisitedCircle mask0 ((jsRound spawn1.x : ℤ) : ℚ)
    ((jsRound spawn1.y : ℤ) : ℚ) radiusPixels
  let mask2 := markVisitedCircle mask1 ((jsRound spawn2.x : ℤ) : ℚ)
    ((jsRound spawn2.y : ℤ) : ℚ) radiusPixels
  { isMoving := false,
    hasRoundEnded := false,
    trailMask := mask2,
    playerOne :=
      { angleRadians := 0, positionPixels := spawn1,
        recentPositions := pushRecent []
          ⟨((jsRound spawn1.x : ℤ) : ℚ), ((jsRound spawn1.y : ℤ) : ℚ)⟩,
        gapCorridor := [], isAlive := true, scoreSeconds := 0,
        gap := initGapState gapDraw1 },
    playerTwo :=
      { angleRadians := 0, positionPixels := spawn2,
        recentPositions := pushRecent []
          ⟨((jsRound spawn2.x : ℤ) : ℚ), ((jsRound spawn2.y : ℤ) : ℚ)⟩,
        gapCorridor := [], isAlive := true, scoreSeconds := 0,
        gap := initGapState gapDraw2 } }

theorem rotatedP1_isAlive (env : Env) (inp : TickInput) (s : RoundState) :
    (rotatedP1 env inp s).isAlive = s.playerOne.isAlive := rfl

theorem rotatedP2_isAlive (env : Env) (inp : TickInput) (s : RoundState) :
    (rotatedP2 env inp s).isAlive = s.playerTwo.isAlive := rfl

theorem gapUpdatedP1_isAlive (env : Env) (inp : TickInput) (s : RoundState) :
    (gapUpdatedP1 env inp s).isAlive = s.playerOne.isAlive := by
  simp only [gapUpdatedP1]
  split <;> rfl

theorem gapUpdatedP2_isAlive (env : Env) (inp : TickInput) (s : RoundState) :
    (gapUpdatedP2 env inp s).isAlive = s.playerTwo.isAlive := by
  simp only [gapUpdatedP2]
  split <;> rfl

theorem gapUpdatedP1_positionPixels (env : Env) (inp : TickInput) (s : RoundState) :
    (gapUpdatedP1 env inp s).positionPixels = s.playerOne.positionPixels := by
  simp only [gapUpdatedP1]
  split <;> rfl

theorem gapUpdatedP2_positionPixels (env : Env) (inp : TickInput) (s : RoundState) :
    (gapUpdatedP2 env inp s).positionPixels = s.playerTwo.positionPixels := by
  simp only [gapUpdatedP2]
  split <;> rfl

theorem gapUpdatedP1_scoreSeconds (env : Env) (inp : TickInput) (s : RoundState) :
    (gapUpdatedP1 env inp s).scoreSeconds = s.playerOne.scoreSeconds := by
  simp only [gapUpdatedP1]
  split <;> rfl

theorem gapUpdatedP2_scoreSeconds (env : Env) (inp : TickInput) (s : RoundState) :
    (gapUpdatedP2 env inp s).scoreSeconds = s.playerTwo.scoreSeconds := by
  simp only [gapUpdatedP2]
  split <;> rfl

theorem movePlayer_dead (env : Env) (m : TrailMask) (p : PlayerState)
    (dt w h : ℚ) (o : List Vector2D) (hp : p.isAlive = false) :
    movePlayer env m p dt w h o = (p, m) := by
  simp [movePlayer, hp]

theorem movePlayer_score_mono (env : Env) (m : TrailMask) (p : PlayerState)
    (dt w h : ℚ) (o : List Vector2D) (hdt : 0 ≤ dt) :
    p.scoreSeconds ≤ (movePlayer env m p dt w h o).1.scoreSeconds := by
  rcases Bool.eq_false_or_eq_true p.isAlive with hp | hp
  · simp only [movePlayer, hp, if_true]
    split_ifs <;> simp <;> linarith
  · rw [movePlayer_dead env m p dt w h o hp]

theorem step_playerOne_eq (env : Env) (inp : TickInput) (s : RoundState)
    (hmov : s.isMoving = true) (hend : s.hasRoundEnded = false) :
    (step env inp s).playerOne = (p1Resolved env inp s).1 := by
  rw [step, if_pos (by rw [hmov, hend]; rfl)]

theorem step_playerTwo_eq (env : Env) (inp : TickInput) (s : RoundState)
    (hmov : s.isMoving = true) (hend : s.hasRoundEnded = false) :
    (step env inp s).playerTwo
      = (movePlayer env (p1Resolved env inp s).2 (gapUpdatedP2 env inp s)
          inp.deltaTimeSeconds inp.clientWidth inp.clientHeight
          (p1Resolved env inp s).1.gapCorridor).1 := by
  rw [step, if_pos (by rw [hmov, hend]; rfl)]

theorem step_notMoving (env : Env) (inp : TickInput) (s : RoundState)
    (h : (s.isMoving && !s.hasRoundEnded) = false) :
    step env inp s
      = { s with playerOne := rotatedP1 env inp s, playerTwo := rotatedP2 env inp s } := by
  rw [step, if_neg (by rw [h]; exact Bool.false_ne_true)]

theorem movePlayer_border (env : Env) (m : TrailMask) (p : PlayerState)
    (dt w h : ℚ) (o : List Vector2D) (ha : p.isAlive = true)
    (hb : hitsBorder (candidateX env p dt) (candidateY env p dt) w h radiusPixels = true) :
    movePlayer env m p dt w h o = ({ p with isAlive := false }, m) := by
  simp only [movePlayer, ha, if_true, hb]

theorem movePlayer_commit (env : Env) (m : TrailMask) (p : PlayerState)
    (dt w h : ℚ) (o : List Vector2D) (ha : p.isAlive = true)
    (hb : hitsBorder (candidateX env p dt) (candidateY env p dt) w h radiusPixels = false)
    (hc : collidesWithTrailExcludingPoints m
        ⟨((jsRound (candidateX env p dt) : ℤ) : ℚ), ((jsRound (candidateY env p dt) : ℤ) : ℚ)⟩
        radiusPixels (p.recentPositions ++ p.gapCorridor ++ o)
        (max extraIgnoreMarginPixels corridorExtraMarginPixels) = false) :
    (movePlayer env m p dt w h o).1.isAlive = true ∧
    (movePlayer env m p dt w h o).1.positionPixels
      = ⟨candidateX env p dt, candidateY env p dt⟩ := by
  simp only [movePlayer, ha, if_true, hb, Bool.false_eq_true, if_false, hc]
  split_ifs <;> exact ⟨rfl, rfl⟩

theorem movePlayer_gap_commit (env : Env) (m : TrailMask) (p : PlayerState)
    (dt w h : ℚ) (o : List Vector2D) (ha : p.isAlive = true)
    (hb : hitsBorder (candidateX env p dt) (candidateY env p dt) w h radiusPixels = false)
    (hc : collidesWithTrailExcludingPoints m
        ⟨((jsRound (candidateX env p dt) : ℤ) : ℚ), ((jsRound (candidateY env p dt) : ℤ) : ℚ)⟩
        radiusPixels (p.recentPositions ++ p.gapCorridor ++ o)
        (max extraIgnoreMarginPixels corridorExtraMarginPixels) = false)
    (hg : p.gap.isActive = true) :
    (movePlayer env m p dt w h o).1.gapCorridor
      = pushGapCorridor p.gapCorridor
          ⟨((jsRound (candidateX env p dt) : ℤ) : ℚ),
           ((jsRound (candidateY env p dt) : ℤ) : ℚ)⟩ := by
  simp only [movePlayer, ha, if_true, hb, Bool.false_eq_true, if_false, hc, hg,
    Bool.true_eq_false]

/-- C4: while player one is alive in a running tick, a candidate position
inside the safe rectangle, including exactly on its boundary, together with a
collision-free trail query is accepted: the player stays alive and moves to
the candidate. A candidate one pixel beyond the boundary on any of the four
sides (x below the safe minimum or above the safe maximum by one, or y below
the safe minimum or above the safe maximum by one) makes hitsBorder true and
the player dies in place, without moving. -/
theorem claim_c4_boundary (env : Env) (inp : TickInput) (s : RoundState)
    (hmov : s.isMoving = true) (hend : s.hasRoundEnded = false)
    (halive : s.playerOne.isAlive = true) :
    ((insetPixels + thicknessPixels + radiusPixels
        ≤ candidateX env (gapUpdatedP1 env inp s) inp.deltaTimeSeconds →
      candidateX env (gapUpdatedP1 env inp s) inp.deltaTimeSeconds
        ≤ inp.clientWidth - insetPixels - thicknessPixels - radiusPixels →
      insetPixels + thicknessPixels + radiusPixels
        ≤ candidateY env (gapUpdatedP1 env inp s) inp.deltaTimeSeconds →
      candidateY env (gapUpdatedP1 env inp s) inp.deltaTimeSeconds
        ≤ inp.clientHeight - insetPixels - thicknessPixels - radiusPixels →
      collidesWithTrailExcludingPoints s.trailMask
        ⟨((jsRound (candidateX env (gapUpdatedP1 env inp s) inp.deltaTimeSeconds) : ℤ) : ℚ),
         ((jsRound (candidateY env (gapUpdatedP1 env inp s) inp.deltaTimeSeconds) : ℤ) : ℚ)⟩
        radiusPixels
        ((gapUpdatedP1 env inp s).recentPositions ++ (gapUpdatedP1 env inp s).gapCorridor
          ++ (gapUpdatedP2 env inp s).gapCorridor)
        (max extraIgnoreMarginPixels corridorExtraMarginPixels) = false →
      (step env inp s).playerOne.isAlive = true ∧
      (step env inp s).playerOne.positionPixels
        = ⟨candidateX env (gapUpdatedP1 env inp s) inp.deltaTimeSeconds,
           candidateY env (gapUpdatedP1 env inp s) inp.deltaTimeSeconds⟩) ∧
     ((candidateX env (gapUpdatedP1 env inp s) inp.deltaTimeSeconds
        = insetPixels + thicknessPixels + radiusPixels - 1 ∨
       candidateX env (gapUpdatedP1 env inp s) inp.deltaTimeSeconds
        = inp.clientWidth - insetPixels - thicknessPixels - radiusPixels + 1 ∨
       candidateY env (gapUpdatedP1 env inp s) inp.deltaTimeSeconds
        = insetPixels + thicknessPixels + radiusPixels - 1 ∨
       candidateY env (gapUpdatedP1 env inp s) inp.deltaTimeSeconds
        = inp.clientHeight - insetPixels - thicknessPixels - radiusPixels + 1) →
      hitsBorder (candidateX env (gapUpdatedP1 env inp s) inp.deltaTimeSeconds)
        (candidateY env (gapUpdatedP1 env inp s) inp.deltaTimeSeconds)
        inp.clientWidth inp.clientHeight radiusPixels = true ∧
      (step env inp s).playerOne.isAlive = false ∧
      (step env inp s).playerOne.positionPixels = s.playerOne.positionPixels)) := by
  have halive2 : (gapUpdatedP1 env inp s).isAlive = true := by
    rw [gapUpdatedP1_isAlive]
    exact halive
  have hstep1 := step_playerOne_eq env inp s hmov hend
  constructor
  · intro h1 h2 h3 h4 hcol
    have hb : hitsBorder (candidateX env (gapUpdatedP1 env inp s) inp.deltaTimeSeconds)
        (candidateY env (gapUpdatedP1 env inp s) inp.deltaTimeSeconds)
        inp.clientWidth inp.clientHeight radiusPixels = false :=
      (hitsBorder_eq_false_iff _ _ _ _ _).mpr ⟨h1, h2, h3, h4⟩
    have hcommit := movePlayer_commit env s.trailMask (gapUpdatedP1 env inp s)
      inp.deltaTimeSeconds inp.clientWidth inp.clientHeight
      (gapUpdatedP2 env inp s).gapCorridor halive2 hb hcol
    rw [hstep1, p1Resolved]
    exact hcommit
  · intro hcase
    have hbt : hitsBorder (candidateX env (gapUpdatedP1 env inp s) inp.deltaTimeSeconds)
        (candidateY env (gapUpdatedP1 env inp s) inp.deltaTimeSeconds)
        inp.clientWidth inp.clientHeight radiusPixels = true := by
      rw [hitsBorder]
      simp only [decide_eq_true_eq, Bool.or_eq_true, gt_iff_lt]
      rcases hcase with h | h | h | h
      · have hlt : candidateX env (gapUpdatedP1 env inp s) inp.deltaTimeSeconds
            < insetPixels + thicknessPixels + radiusPixels := by
          rw [h]
          linarith
        tauto
      · have hlt : inp.clientWidth - insetPixels - thicknessPixels - radiusPixels
            < candidateX env (gapUpdatedP1 env inp s) inp.deltaTimeSeconds := by
          rw [h]
          linarith
        tauto
      · have hlt : candidateY env (gapUpdatedP1 env inp s) inp.deltaTimeSeconds
            < insetPixels + thicknessPixels + radiusPixels := by
          rw [h]
          linarith
        tauto
      · have hlt : inp.clientHeight - insetPixels - thicknessPixels - radiusPixels
            < candidateY env (gapUpdatedP1 env inp s) inp.deltaTimeSeconds := by
          rw [h]
          linarith
        tauto
    have hdie := movePlayer_border env s.trailMask (gapUpdatedP1 env inp s)
      inp.deltaTimeSeconds inp.clientWidth inp.clientHeight
      (gapUpdatedP2 env inp s).gapCorridor halive2 hbt
    refine ⟨hbt, ?_, ?_⟩
    · rw [hstep1, p1Resolved, hdie]
    · rw [hstep1, p1Resolved, hdie]
      exact gapUpdatedP1_positionPixels env inp s

theorem collides_createTrailMask (w h : ℤ) (c : Vector2D) (r mg : ℚ)
    (pts : List Vector2D) :
    collidesWithTrailExcludingPoints (createTrailMask w h) c r pts mg = false := by
  rw [Bool.eq_false_iff]
  intro htrue
  rw [collides_eq_true_iff] at htrue
  obtain ⟨py, hpy, px, hpx, hd, hocc, hall⟩ := htrue
  rw [createTrailMask_occupancy] at hocc
  exact absurd hocc (by norm_num)

/-- Concrete test fixtures used by the witnesses below. -/

def testEnv : Env :=
  { cosApprox := fun _ => -1, sinApprox := fun _ => 0, turnSpeedRadiansPerSecond := 0 }

def testMask : TrailMask := createTrailMask 100 100

def testInput : TickInput :=
  { deltaTimeSeconds := 1 / 80, p1TurnLeft := false, p1TurnRight := false,
    p2TurnLeft := false, p2TurnRight := false, clientWidth := 100, clientHeight := 100,
    gapDraw1 := 2, gapDraw2 := 2 }

def testP1 : PlayerState :=
  { angleRadians := 0, positionPixels := ⟨11, 50⟩, recentPositions := [],
    gapCorridor := [], isAlive := true, scoreSeconds := 0,
    gap := { isActive := false, timeUntilNextGap := 2, remainingGapTime := 0 } }

def testP2 : PlayerState :=
  { angleRadians := 0, positionPixels := ⟨80, 80⟩, recentPositions := [],
    gapCorridor := [], isAlive := true, scoreSeconds := 0,
    gap := { isActive := false, timeUntilNextGap := 2, remainingGapTime := 0 } }

def testState : RoundState :=
  { isMoving := true, hasRoundEnded := false, trailMask := testMask,
    playerOne := testP1, playerTwo := testP2 }

def testInputFast : TickInput :=
  { deltaTimeSeconds := 1 / 40, p1TurnLeft := false, p1TurnRight := false,
    p2TurnLeft := false, p2TurnRight := false, clientWidth := 100, clientHeight := 100,
    gapDraw1 := 2, gapDraw2 := 2 }

theorem claim_c4_witness :
    testState.isMoving = true ∧ testState.hasRoundEnded = false ∧
    testState.playerOne.isAlive = true ∧
    (step testEnv testInput testState).playerOne.isAlive = true ∧
    (step testEnv testInput testState).playerOne.positionPixels = ⟨10, 50⟩ ∧
    hitsBorder 9 50 100 100 radiusPixels = true ∧
    (step testEnv testInputFast testState).playerOne.isAlive = false ∧
    (step testEnv testInputFast testState).playerOne.positionPixels = ⟨11, 50⟩ := by
  have hcx : candidateX testEnv (gapUpdatedP1 testEnv testInput testState)
      testInput.deltaTimeSeconds = 10 := by
    simp [candidateX, gapUpdatedP1, rotatedP1, applyTurn, testState, testP1, testInput,
      testEnv, forwardSpeedPixelsPerSecond]
    norm_num
  have hcy : candidateY testEnv (gapUpdatedP1 testEnv testInput testState)
      testInput.deltaTimeSeconds = 50 := by
    simp [candidateY, gapUpdatedP1, rotatedP1, applyTurn, testState, testP1, testInput,
      testEnv, forwardSpeedPixelsPerSecond]
  have h := (claim_c4_boundary testEnv testInput testState rfl rfl rfl).1
    (by rw [hcx]; norm_num [insetPixels, thicknessPixels, radiusPixels])
    (by rw [hcx]; norm_num [insetPixels, thicknessPixels, radiusPixels, testInput])
    (by rw [hcy]; norm_num [insetPixels, thicknessPixels, radiusPixels])
    (by rw [hcy]; norm_num [insetPixels, thicknessPixels, radiusPixels, testInput])
    (collides_createTrailMask 100 100 _ _ _ _)
  have hcx2 : candidateX testEnv (gapUpdatedP1 testEnv testInputFast testState)
      testInputFast.deltaTimeSeconds = 9 := by
    simp [candidateX, gapUpdatedP1, rotatedP1, applyTurn, testState, testP1, testInputFast,
      testEnv, forwardSpeedPixelsPerSecond]
    norm_num
  have hcy2 : candidateY testEnv (gapUpdatedP1 testEnv testInputFast testState)
      testInputFast.deltaTimeSeconds = 50 := by
    simp [candidateY, gapUpdatedP1, rotatedP1, applyTurn, testState, testP1, testInputFast,
      testEnv, forwardSpeedPixelsPerSecond]
  have h2 := (claim_c4_boundary testEnv testInputFast testState rfl rfl rfl).2
    (Or.inl (by rw [hcx2]; norm_num [insetPixels, thicknessPixels, radiusPixels]))
  have hborder : hitsBorder 9 50 100 100 radiusPixels = true := by
    have hb := h2.1
    rw [hcx2, hcy2] at hb
    exact hb
  refine ⟨rfl, rfl, rfl, h.1, ?_, hborder, h2.2.1, ?_⟩
  · rw [h.2, hcx, hcy]
  · rw [h2.2.2]
    rfl

/-- C6: in a running tick player one resolves first: the playerTwo component
of the step is movePlayer applied to the trail mask left by player one and to
player one's gap corridor after player one's resolution; and when player one
makes a gap move this tick (alive, no border hit, no collision, gap active),
the rounded point player one just pushed to its gap corridor is already a
member of the exclusion list player two's collision check uses. -/
theorem claim_c6_tick_ordering (env : Env) (inp : TickInput) (s : RoundState)
    (hmov : s.isMoving = true) (hend : s.hasRoundEnded = false) :
    ((step env inp s).playerTwo
      = (movePlayer env (p1Resolved env inp s).2 (gapUpdatedP2 env inp s)
          inp.deltaTimeSeconds inp.clientWidth inp.clientHeight
          (p1Resolved env inp s).1.gapCorridor).1) ∧
    ((gapUpdatedP1 env inp s).isAlive = true →
     hitsBorder (candidateX env (gapUpdatedP1 env inp s) inp.deltaTimeSeconds)
       (candidateY env (gapUpdatedP1 env inp s) inp.deltaTimeSeconds)
       inp.clientWidth inp.clientHeight radiusPixels = false →
     collidesWithTrailExcludingPoints s.trailMask
       ⟨((jsRound (candidateX env (gapUpdatedP1 env inp s) inp.deltaTimeSeconds) : ℤ) : ℚ),
        ((jsRound (candidateY env (gapUpdatedP1 env inp s) inp.deltaTimeSeconds) : ℤ) : ℚ)⟩
       radiusPixels
       ((gapUpdatedP1 env inp s).recentPositions ++ (gapUpdatedP1 env inp s).gapCorridor
         ++ (gapUpdatedP2 env inp s).gapCorridor)
       (max extraIgnoreMarginPixels corridorExtraMarginPixels) = false →
     (gapUpdatedP1 env inp s).gap.isActive = true →
     (⟨((jsRound (candidateX env (gapUpdatedP1 env inp s) inp.deltaTimeSeconds) : ℤ) : ℚ),
       ((jsRound (candidateY env (gapUpdatedP1 env inp s) inp.deltaTimeSeconds) : ℤ) : ℚ)⟩
       : Vector2D) ∈ p2IgnoreList env inp s) := by
  constructor
  · exact step_playerTwo_eq env inp s hmov hend
  · intro ha hb hc hg
    rw [p2IgnoreList]
    apply List.mem_append_right
    rw [p1Resolved, movePlayer_gap_commit env s.trailMask (gapUpdatedP1 env inp s)
      inp.deltaTimeSeconds inp.clientWidth inp.clientHeight
      (gapUpdatedP2 env inp s).gapCorridor ha hb hc hg]
    exact mem_pushGapCorridor_self _ _

def testP1Gap : PlayerState :=
  { angleRadians := 0, positionPixels := ⟨50, 50⟩, recentPositions := [],
    gapCorridor := [], isAlive := true, scoreSeconds := 0,
    gap := { isActive := true, timeUntilNextGap := 0, remainingGapTime := 5 } }

def testStateGap : RoundState :=
  { isMoving := true, hasRoundEnded := false, trailMask := testMask,
    playerOne := testP1Gap, playerTwo := testP2 }

theorem claim_c6_witness :
    (gapUpdatedP1 testEnv testInput testStateGap).isAlive = true ∧
    (gapUpdatedP1 testEnv testInput testStateGap).gap.isActive = true ∧
    (⟨49, 50⟩ : Vector2D) ∈ p2IgnoreList testEnv testInput testStateGap := by
  have hcx : candidateX testEnv (gapUpdatedP1 testEnv testInput testStateGap)
      testInput.deltaTimeSeconds = 49 := by
    simp [candidateX, gapUpdatedP1, rotatedP1, applyTurn, testStateGap, testP1Gap,
      testInput, testEnv, forwardSpeedPixelsPerSecond]
    norm_num
  have hcy : candidateY testEnv (gapUpdatedP1 testEnv testInput testStateGap)
      testInput.deltaTimeSeconds = 50 := by
    simp [candidateY, gapUpdatedP1, rotatedP1, applyTurn, testStateGap, testP1Gap,
      testInput, testEnv, forwardSpeedPixelsPerSecond]
  have hgap : (gapUpdatedP1 testEnv testInput testStateGap).gap.isActive = true := by
    have h1 : (gapUpdatedP1 testEnv testInput testStateGap).gap
        = updateGap { isActive := true, timeUntilNextGap := 0, remainingGapTime := 5 }
            (1 / 80) 2 := rfl
    rw [h1, updateGap_gap_stay _ _ _ rfl (by norm_num)]
  have hmem := (claim_c6_tick_ordering testEnv testInput testStateGap rfl rfl).2
    rfl
    (by
      rw [hcx, hcy]
      exact (hitsBorder_eq_false_iff _ _ _ _ _).mpr
        (by norm_num [insetPixels, thicknessPixels, radiusPixels, testInput]))
    (collides_createTrailMask 100 100 _ _ _ _)
    hgap
  rw [hcx, hcy] at hmem
  have hj : ((jsRound 49 : ℤ) : ℚ) = 49 := by
    norm_num [jsRound]
  have hj2 : ((jsRound 50 : ℤ) : ℚ) = 50 := by
    norm_num [jsRound]
  rw [hj, hj2] at hmem
  exact ⟨rfl, hgap, hmem⟩

theorem rotatedP1_scoreSeconds (env : Env) (inp : TickInput) (s : RoundState) :
    (rotatedP1 env inp s).scoreSeconds = s.playerOne.scoreSeconds := rfl

theorem rotatedP2_scoreSeconds (env : Env) (inp : TickInput) (s : RoundState) :
    (rotatedP2 env inp s).scoreSeconds = s.playerTwo.scoreSeconds := rfl

/-- C9: with a nonnegative delta time, neither score decreases in a tick; and
a player whose alive flag is false at the start of a tick keeps both score
and position unchanged through the tick (rotation may still change the
heading, as the source applies rotation unconditionally). -/
theorem claim_c9_score_frozen (env : Env) (inp : TickInput) (s : RoundState)
    (hdt : 0 ≤ inp.deltaTimeSeconds) :
    s.playerOne.scoreSeconds ≤ (step env inp s).playerOne.scoreSeconds ∧
    s.playerTwo.scoreSeconds ≤ (step env inp s).playerTwo.scoreSeconds ∧
    (s.playerOne.isAlive = false →
      (step env inp s).playerOne.scoreSeconds = s.playerOne.scoreSeconds ∧
      (step env inp s).playerOne.positionPixels = s.playerOne.positionPixels) ∧
    (s.playerTwo.isAlive = false →
      (step env inp s).playerTwo.scoreSeconds = s.playerTwo.scoreSeconds ∧
      (step env inp s).playerTwo.positionPixels = s.playerTwo.positionPixels) := by
  rcases Bool.eq_false_or_eq_true (s.isMoving && !s.hasRoundEnded) with hcase | hcase
  · have hboth : s.isMoving = true ∧ s.hasRoundEnded = false := by
      have h := hcase
      simp only [Bool.and_eq_true, Bool.not_eq_true'] at h
      exact h
    have hmov : s.isMoving = true := hboth.1
    have hend : s.hasRoundEnded = false := hboth.2
    have h1 := step_playerOne_eq env inp s hmov hend
    have h2 := step_playerTwo_eq env inp s hmov hend
    refine ⟨?_, ?_, ?_, ?_⟩
    · rw [h1, p1Resolved]
      calc s.playerOne.scoreSeconds
          = (gapUpdatedP1 env inp s).scoreSeconds := (gapUpdatedP1_scoreSeconds env inp s).symm
        _ ≤ _ := movePlayer_score_mono env s.trailMask (gapUpdatedP1 env inp s)
            inp.deltaTimeSeconds inp.clientWidth inp.clientHeight
            (gapUpdatedP2 env inp s).gapCorridor hdt
    · rw [h2]
      calc s.playerTwo.scoreSeconds
          = (gapUpdatedP2 env inp s).scoreSeconds := (gapUpdatedP2_scoreSeconds env inp s).symm
        _ ≤ _ := movePlayer_score_mono env (p1Resolved env inp s).2 (gapUpdatedP2 env inp s)
            inp.deltaTimeSeconds inp.clientWidth inp.clientHeight
            (p1Resolved env inp s).1.gapCorridor hdt
    · intro hdead
      have hdead2 : (gapUpdatedP1 env inp s).isAlive = false := by
        rw [gapUpdatedP1_isAlive]
        exact hdead
      rw [h1, p1Resolved, movePlayer_dead env s.trailMask (gapUpdatedP1 env inp s)
        inp.deltaTimeSeconds inp.clientWidth inp.clientHeight
        (gapUpdatedP2 env inp s).gapCorridor hdead2]
      exact ⟨gapUpdatedP1_scoreSeconds env inp s, gapUpdatedP1_positionPixels env inp s⟩
    · intro hdead
      have hdead2 : (gapUpdatedP2 env inp s).isAlive = false := by
        rw [gapUpdatedP2_isAlive]
        exact hdead
      rw [h2, movePlayer_dead env (p1Resolved env inp s).2 (gapUpdatedP2 env inp s)
        inp.deltaTimeSeconds inp.clientWidth inp.clientHeight
        (p1Resolved env inp s).1.gapCorridor hdead2]
      exact ⟨gapUpdatedP2_scoreSeconds env inp s, gapUpdatedP2_positionPixels env inp s⟩
  · rw [step_notMoving env inp s hcase]
    exact ⟨le_refl _, le_refl _, fun _ => ⟨rfl, rfl⟩, fun _ => ⟨rfl, rfl⟩⟩

theorem claim_c9_witness :
    (0 : ℚ) ≤ testInput.deltaTimeSeconds ∧
    testState.playerOne.scoreSeconds ≤ (step testEnv testInput testState).playerOne.scoreSeconds ∧
    testState.playerTwo.scoreSeconds
      ≤ (step testEnv testInput testState).playerTwo.scoreSeconds := by
  have hdt : (0 : ℚ) ≤ testInput.deltaTimeSeconds := by norm_num [testInput]
  have h := claim_c9_score_frozen testEnv testInput testState hdt
  exact ⟨hdt, h.1, h.2.1⟩

theorem resetRound_trailMask (w h : ℤ) (s1 s2 : Vector2D) (d1 d2 : ℚ) :
    (resetRound w h s1 s2 d1 d2).trailMask
      = markVisitedCircle
          (markVisitedCircle (createTrailMask w h) ((jsRound s1.x : ℤ) : ℚ)
            ((jsRound s1.y : ℤ) : ℚ) radiusPixels)
          ((jsRound s2.x : ℤ) : ℚ) ((jsRound s2.y : ℤ) : ℚ) radiusPixels := rfl

theorem resetRound_occ_5050 :
    (resetRound 100 100 ⟨50, 50⟩ ⟨20, 20⟩ 2 2).trailMask.occupancy 5050 = 1 := by
  rw [resetRound_trailMask]
  have hj50 : ((jsRound (50 : ℚ) : ℤ) : ℚ) = 50 := by norm_num [jsRound]
  have hj20 : ((jsRound (20 : ℚ) : ℤ) : ℚ) = 20 := by norm_num [jsRound]
  show (markVisitedCircle
      (markVisitedCircle (createTrailMask 100 100) ((jsRound (50 : ℚ) : ℤ) : ℚ)
        ((jsRound (50 : ℚ) : ℤ) : ℚ) radiusPixels)
      ((jsRound (20 : ℚ) : ℤ) : ℚ) ((jsRound (20 : ℚ) : ℤ) : ℚ) radiusPixels).occupancy 5050 = 1
  rw [hj50, hj20]
  rw [markVisitedCircle_occupancy]
  rw [if_neg ?_]
  · rw [markVisitedCircle_occupancy]
    rw [if_pos ?_]
    refine ⟨50, ?_, 50, ?_, ?_, ?_⟩
    · rw [mem_intRange]
      simp only [createTrailMask_heightPixels]
      constructor
      · norm_num [radiusPixels]
      · norm_num [radiusPixels]
    · rw [mem_intRange]
      simp only [createTrailMask_widthPixels]
      constructor
      · norm_num [radiusPixels]
      · norm_num [radiusPixels]
    · norm_num [radiusPixels]
    · norm_num [createTrailMask_widthPixels]
  · rintro ⟨py0, hpy0, px0, hpx0, hd0, hidx⟩
    simp only [markVisitedCircle_widthPixels, markVisitedCircle_heightPixels,
      createTrailMask_widthPixels, createTrailMask_heightPixels] at hpy0 hpx0 hidx
    rw [mem_intRange] at hpy0 hpx0
    have hc1 : (⌈(20 : ℚ) + radiusPixels⌉ : ℤ) = 22 := by norm_num [radiusPixels]
    have hc2 : (⌊(20 : ℚ) - radiusPixels⌋ : ℤ) = 18 := by norm_num [radiusPixels]
    rw [hc1, hc2] at hpy0 hpx0
    omega

/-- C2, counterexample: after a restart on a 100 by 100 surface with spawns
(50, 50) and (20, 20) (both inside the safe rectangle) both scores are 0 and
both players alive, but the trail mask is not all zero: resetRound stamps the
two spawn circles right after creating the mask, so the flat entry of cell
(50, 50) is already occupied. -/
theorem claim_c2_counterexample :
    (resetRound 100 100 ⟨50, 50⟩ ⟨20, 20⟩ 2 2).playerOne.scoreSeconds = 0 ∧
    (resetRound 100 100 ⟨50, 50⟩ ⟨20, 20⟩ 2 2).playerTwo.scoreSeconds = 0 ∧
    (resetRound 100 100 ⟨50, 50⟩ ⟨20, 20⟩ 2 2).playerOne.isAlive = true ∧
    (resetRound 100 100 ⟨50, 50⟩ ⟨20, 20⟩ 2 2).playerTwo.isAlive = true ∧
    (resetRound 100 100 ⟨50, 50⟩ ⟨20, 20⟩ 2 2).trailMask.occupancy 5050 = 1 :=
  ⟨rfl, rfl, rfl, rfl, resetRound_occ_5050⟩

/-- C2, amended: after resetRound both scores are 0.0 and both players alive;
the trail mask is created all zero by createTrailMask, but resetRound then
marks the two spawn circles, so afterwards every occupied grid cell lies
within the dot radius of one of the two rounded spawn points (and only the
freshly created mask, before the spawn stamps, has zero occupied cells). -/
theorem claim_c2_reset (w h : ℤ) (s1 s2 : Vector2D) (d1 d2 : ℚ) :
    (resetRound w h s1 s2 d1 d2).playerOne.scoreSeconds = 0 ∧
    (resetRound w h s1 s2 d1 d2).playerTwo.scoreSeconds = 0 ∧
    (resetRound w h s1 s2 d1 d2).playerOne.isAlive = true ∧
    (resetRound w h s1 s2 d1 d2).playerTwo.isAlive = true ∧
    (∀ j : ℤ, (createTrailMask w h).occupancy j = 0) ∧
    (∀ px py : ℤ, 0 ≤ px → px < w → 0 ≤ py → py < h →
      (resetRound w h s1 s2 d1 d2).trailMask.occupancy (py * w + px) = 1 →
      (((px : ℚ) - ((jsRound s1.x : ℤ) : ℚ)) * ((px : ℚ) - ((jsRound s1.x : ℤ) : ℚ))
        + ((py : ℚ) - ((jsRound s1.y : ℤ) : ℚ)) * ((py : ℚ) - ((jsRound s1.y : ℤ) : ℚ))
        ≤ radiusPixels * radiusPixels) ∨
      (((px : ℚ) - ((jsRound s2.x : ℤ) : ℚ)) * ((px : ℚ) - ((jsRound s2.x : ℤ) : ℚ))
        + ((py : ℚ) - ((jsRound s2.y : ℤ) : ℚ)) * ((py : ℚ) - ((jsRound s2.y : ℤ) : ℚ))
        ≤ radiusPixels * radiusPixels)) := by
  refine ⟨rfl, rfl, rfl, rfl, fun j => rfl, ?_⟩
  intro px py hx0 hxw hy0 hyh hocc
  rw [resetRound_trailMask, markVisitedCircle_occupancy] at hocc
  split at hocc
  case isTrue hm2 =>
    obtain ⟨py0, hpy0, px0, hpx0, hd0, hidx⟩ := hm2
    simp only [markVisitedCircle_widthPixels, markVisitedCircle_heightPixels,
      createTrailMask_widthPixels, createTrailMask_heightPixels] at hpy0 hpx0 hidx
    rw [mem_intRange] at hpy0 hpx0
    have hx1 : 0 ≤ px0 := le_trans (le_max_left 0 _) hpx0.1
    have hx2 : px0 ≤ w - 1 := le_trans hpx0.2 (min_le_left _ _)
    obtain ⟨he1, he2⟩ := flatIndex_inj (w := w) hx1 (by omega) hx0 (by omega) hidx
    rw [he1, he2] at hd0
    right
    exact hd0
  case isFalse =>
    rw [markVisitedCircle_occupancy] at hocc
    split at hocc
    case isTrue hm1 =>
      obtain ⟨py0, hpy0, px0, hpx0, hd0, hidx⟩ := hm1
      simp only [createTrailMask_widthPixels, createTrailMask_heightPixels]
        at hpy0 hpx0 hidx
      rw [mem_intRange] at hpy0 hpx0
      have hx1 : 0 ≤ px0 := le_trans (le_max_left 0 _) hpx0.1
      have hx2 : px0 ≤ w - 1 := le_trans hpx0.2 (min_le_left _ _)
      obtain ⟨he1, he2⟩ := flatIndex_inj (w := w) hx1 (by omega) hx0 (by omega) hidx
      rw [he1, he2] at hd0
      left
      exact hd0
    case isFalse =>
      rw [createTrailMask_occupancy] at hocc
      exact absurd hocc (by norm_num)

theorem claim_c2_witness :
    (resetRound 100 100 ⟨50, 50⟩ ⟨20, 20⟩ 2 2).playerOne.scoreSeconds = 0 ∧
    (resetRound 100 100 ⟨50, 50⟩ ⟨20, 20⟩ 2 2).playerTwo.scoreSeconds = 0 ∧
    (resetRound 100 100 ⟨50, 50⟩ ⟨20, 20⟩ 2 2).playerOne.isAlive = true ∧
    (resetRound 100 100 ⟨50, 50⟩ ⟨20, 20⟩ 2 2).playerTwo.isAlive = true ∧
    (createTrailMask 100 100).occupancy 0 = 0 ∧
    (((((50 : ℤ) : ℚ) - ((jsRound (Vector2D.mk 50 50).x : ℤ) : ℚ))
        * (((50 : ℤ) : ℚ) - ((jsRound (Vector2D.mk 50 50).x : ℤ) : ℚ))
      + (((50 : ℤ) : ℚ) - ((jsRound (Vector2D.mk 50 50).y : ℤ) : ℚ))
        * (((50 : ℤ) : ℚ) - ((jsRound (Vector2D.mk 50 50).y : ℤ) : ℚ))
      ≤ radiusPixels * radiusPixels) ∨
    ((((50 : ℤ) : ℚ) - ((jsRound (Vector2D.mk 20 20).x : ℤ) : ℚ))
        * (((50 : ℤ) : ℚ) - ((jsRound (Vector2D.mk 20 20).x : ℤ) : ℚ))
      + (((50 : ℤ) : ℚ) - ((jsRound (Vector2D.mk 20 20).y : ℤ) : ℚ))
        * (((50 : ℤ) : ℚ) - ((jsRound (Vector2D.mk 20 20).y : ℤ) : ℚ))
      ≤ radiusPixels * radiusPixels)) := by
  have h := claim_c2_reset 100 100 ⟨50, 50⟩ ⟨20, 20⟩ 2 2
  have hmem := h.2.2.2.2.2 50 50 (by norm_num) (by norm_num) (by norm_num) (by norm_num)
    (by
      have : (50 : ℤ) * 100 + 50 = 5050 := by norm_num
      rw [this]
      exact resetRound_occ_5050)
  exact ⟨h.1, h.2.1, h.2.2.1, h.2.2.2.1, h.2.2.2.2.1 0, hmem⟩
